import Mathlib

/-!
# Verification development for the LoreKeeper map core

A shallow embedding of the procedural world-generator core
(`src/map/core` and `src/map/render` plus the tool handlers in
`src/map/app/MapCanvas.tsx`) of the repository, together with proofs of the
behavioural properties stated in its design specification.

Modelling conventions:
* JavaScript numbers are modelled as rationals (`ℚ`); machine floats are
  treated as exact field elements.
* The external collaborators (the Alea PRNG stream, the simplex-noise
  sampler, the d3-delaunay mesh index, the JS engine's `Array.sort` with a
  random comparator, and `Math.sqrt`) are bundled into a `MapExt` record of
  deterministic oracle functions.  Generation code treats all of them as
  black boxes; claims whose truth depends on `Math.sqrt` producing the real
  square root carry an explicit hypothesis pinning the oracle's value at the
  inputs where it is consulted.
* A PRNG is a stream `ℕ → ℚ`; each `prng()` call of the source reads the
  stream at a cursor and advances the cursor by one.  Cursors are threaded
  explicitly.
* Source `while` loops that are not structurally recursive are bounded by an
  explicit fuel argument; the properties proved below hold for every fuel.
-/

/-- Biome tag values, matching the `BiomeType` enum of `TerrainGenerator.ts`. -/
def BiomeType.OCEAN : ℕ := 0

/-- `BiomeType.BEACH = 1`. -/
def BiomeType.BEACH : ℕ := 1

/-- `BiomeType.GRASSLAND = 2`. -/
def BiomeType.GRASSLAND : ℕ := 2

/-- `BiomeType.FOREST = 3`. -/
def BiomeType.FOREST : ℕ := 3

/-- `BiomeType.DENSE_FOREST = 4`. -/
def BiomeType.DENSE_FOREST : ℕ := 4

/-- `BiomeType.MOUNTAIN = 5`. -/
def BiomeType.MOUNTAIN : ℕ := 5

/-- `BiomeType.SNOW = 6`. -/
def BiomeType.SNOW : ℕ := 6

/-- `BiomeType.DESERT = 7`. -/
def BiomeType.DESERT : ℕ := 7

/-- `BiomeType.SWAMP = 8`. -/
def BiomeType.SWAMP : ℕ := 8

/-- `BiomeType.TUNDRA = 9`. -/
def BiomeType.TUNDRA : ℕ := 9

/-- A 2-D point of the model (`Point` of `MapState.ts`). -/
structure Point where
  x : ℚ
  y : ℚ
deriving DecidableEq, Repr

/-- City kinds (`City.type` of `MapState.ts`). -/
inductive CityType where
  | Capital
  | Town
  | Village
deriving DecidableEq, Repr

/-- `City` of `MapState.ts`. -/
structure City where
  id : ℕ
  cellId : ℕ
  name : String
  population : ℤ
  type : CityType
deriving DecidableEq, Repr

/-- Castle kinds (`Castle.type` of `MapState.ts`). -/
inductive CastleType where
  | Keep
  | Fort
  | Outpost
  | Citadel
deriving DecidableEq, Repr

/-- `Castle` of `MapState.ts`. -/
structure Castle where
  id : ℕ
  cellId : ℕ
  name : String
  type : CastleType
deriving DecidableEq, Repr

/-- `Marker` of `MapState.ts`. -/
structure Marker where
  id : ℕ
  x : ℚ
  y : ℚ
  name : String
  icon : String
  note : String
deriving DecidableEq, Repr

/-- `River` of `MapState.ts`. -/
structure River where
  id : String
  points : List Point
  width : ℚ
deriving DecidableEq, Repr

/-- Road kinds (`Road.type` of `MapState.ts`). -/
inductive RoadType where
  | dirt
  | paved
  | trade
deriving DecidableEq, Repr

/-- `Road` of `MapState.ts`. -/
structure Road where
  id : String
  points : List Point
  type : RoadType
deriving DecidableEq, Repr

/-- `MapLabel` of `MapState.ts`. -/
structure MapLabel where
  id : String
  text : String
  x : ℚ
  y : ℚ
  size : ℚ
  rotation : ℚ
  labelKind : String
deriving DecidableEq, Repr

/-- `State` of `MapState.ts`.  `capitalId` is an integer because it is
initialised to `-1` before cities are placed. -/
structure State where
  id : ℕ
  name : String
  color : String
  capitalId : ℤ
  centerX : ℚ
  centerY : ℚ
  cellCount : ℕ
deriving DecidableEq, Repr

/-- The per-cell structure-of-arrays block (`WorldMap.cells`). -/
structure Cells where
  heights : List ℚ
  biomes : List ℕ
  states : List ℕ
  cultures : List ℕ
  pop : List ℚ
deriving DecidableEq, Repr

/-- The monotonic id counters (`WorldMap.nextId`). -/
structure NextId where
  city : ℕ
  state : ℕ
  castle : ℕ
  marker : ℕ
deriving DecidableEq, Repr

/-- `WorldMap` of `MapState.ts`, without the two non-serialisable d3 mesh
handles (`delaunay`, `voronoi`); the mesh is an external collaborator and is
passed as an oracle where the code consults it. -/
structure WorldMap where
  seed : ℤ
  width : ℚ
  height : ℚ
  points : List ℚ
  cells : Cells
  rivers : List River
  roads : List Road
  cities : List City
  castles : List Castle
  markers : List Marker
  labels : List MapLabel
  states : List State
  nextId : NextId
deriving DecidableEq, Repr

/-- The external collaborators of the core, as deterministic oracles:
`alea` is the seeded Alea PRNG stream; `mkNoise` models `createNoise2D`
(it may consume stream draws to build its permutation tables, returning the
advanced cursor); `delaunayNeighbors`/`voronoiNeighbors` are the mesh
adjacency of `d3-delaunay` built from a coordinate buffer; `jsSortRandom`
models the engine-defined permutation produced by
`array.sort(() => prng() - 0.5)` (it may consume draws); `sqrtQ` models
`Math.sqrt`. -/
structure MapExt where
  alea : ℤ → ℕ → ℚ
  mkNoise : (ℕ → ℚ) → ℕ → ((ℚ → ℚ → ℚ) × ℕ)
  delaunayNeighbors : List ℚ → ℕ → List ℕ
  voronoiNeighbors : List ℚ → ℕ → List ℕ
  jsSortRandom : (ℕ → ℚ) → ℕ → List ℕ → (List ℕ × ℕ)
  sqrtQ : ℚ → ℚ

/-! ## SeededRandom.ts helpers -/

/-- Swap two positions of a list (the destructuring swap
`[a[i], a[j]] = [a[j], a[i]]`). -/
def listSwap (l : List ℕ) (i j : ℕ) : List ℕ :=
  (l.set i (l.getD j 0)).set j (l.getD i 0)

/-- The Fisher–Yates loop of `shuffle` (`SeededRandom.ts`), iterating `i`
from `len-1` down to `1`, drawing one stream value per step.  Returns the
shuffled list together with the advanced stream cursor. -/
def fisherYatesAux (g : ℕ → ℚ) : ℕ → List ℕ → ℕ → (List ℕ × ℕ)
  | 0, l, r => (l, r)
  | i + 1, l, r =>
      let j := (⌊g r * ((i : ℚ) + 2)⌋).toNat
      fisherYatesAux g i (listSwap l (i + 1) j) (r + 1)

/-- `shuffle(prng, array)` of `SeededRandom.ts` / the private `shuffle` of
`RiverGenerator`: in-place Fisher–Yates from the top index down. -/
def fisherYates (g : ℕ → ℚ) (l : List ℕ) (r : ℕ) : (List ℕ × ℕ) :=
  match l.length with
  | 0 => (l, r)
  | n + 1 => fisherYatesAux g n l r

/-! ## TerrainGenerator.ts -/

/-- `TerrainGenerator.updateCellBiome`, as a pure function of the cell's
coordinates, its current height and the moisture-noise sampler (the sampler
is `createNoise2D(createSeededRandom(seed + 1))`, fixed per world seed). -/
def TerrainGenerator.updateCellBiome (noise : ℚ → ℚ → ℚ) (x y height : ℚ) : ℕ :=
  let moisture := noise (x / 800) (y / 800) * (1 / 2) + 1 / 2
  if height < 1 / 5 then BiomeType.OCEAN
  else if height < 1 / 4 then BiomeType.BEACH
  else if height > 4 / 5 then BiomeType.SNOW
  else if height > 3 / 5 then BiomeType.MOUNTAIN
  else if moisture > 7 / 10 then BiomeType.DENSE_FOREST
  else if moisture > 2 / 5 then BiomeType.FOREST
  else if moisture < 3 / 20 then BiomeType.DESERT
  else BiomeType.GRASSLAND

/-- `TerrainGenerator.generateBiomes`: recompute the biome of every cell
from its height and moisture sample. -/
def TerrainGenerator.generateBiomes (noise : ℚ → ℚ → ℚ) (points heights : List ℚ) : List ℕ :=
  (List.range heights.length).map fun i =>
    TerrainGenerator.updateCellBiome noise (points.getD (i * 2) 0)
      (points.getD (i * 2 + 1) 0) (heights.getD i 0)

/-! ## MapPersistence.ts -/

/-- `SerializedMap` of `MapPersistence.ts`.  The entity collections and the
`nextId` block are optional on the way in (`s.rivers || []` style defaults
in `load`); `save` always writes them. -/
structure SerializedMap where
  seed : ℤ
  width : ℚ
  height : ℚ
  points : List ℚ
  cellsHeights : List ℚ
  cellsBiomes : List ℕ
  cellsStates : List ℕ
  cellsCultures : List ℕ
  cellsPop : List ℚ
  cities : Option (List City)
  castles : Option (List Castle)
  markers : Option (List Marker)
  states : Option (List State)
  rivers : Option (List River)
  roads : Option (List Road)
  nextId : Option NextId
deriving DecidableEq, Repr

/-- `MapPersistence.save`: copy every scalar array to a plain list and pass
the entity collections and `nextId` through (the mesh handles are skipped). -/
def MapPersistence.save (m : WorldMap) : SerializedMap where
  seed := m.seed
  width := m.width
  height := m.height
  points := m.points
  cellsHeights := m.cells.heights
  cellsBiomes := m.cells.biomes
  cellsStates := m.cells.states
  cellsCultures := m.cells.cultures
  cellsPop := m.cells.pop
  cities := some m.cities
  castles := some m.castles
  markers := some m.markers
  states := some m.states
  rivers := some m.rivers
  roads := some m.roads
  nextId := some m.nextId

/-- The successful branch of `MapPersistence.load`: rebuild the typed arrays
and default any absent entity collection to empty; `labels` is always reset
to `[]`.  (The mesh index is rebuilt from `points` by the external library
and is not part of the data model.) -/
def MapPersistence.reconstruct (s : SerializedMap) : WorldMap where
  seed := s.seed
  width := s.width
  height := s.height
  points := s.points
  cells :=
    { heights := s.cellsHeights
      biomes := s.cellsBiomes
      states := s.cellsStates
      cultures := s.cellsCultures
      pop := s.cellsPop }
  rivers := s.rivers.getD []
  roads := s.roads.getD []
  cities := s.cities.getD []
  castles := s.castles.getD []
  markers := s.markers.getD []
  labels := []
  states := s.states.getD []
  nextId := s.nextId.getD ⟨1, 1, 1, 1⟩

/-- The stored payload seen by `MapPersistence.load`: either a parseable
serialised map, or a stored string on which `JSON.parse`, the field reads,
or the mesh reconstruction throw (`corrupt`). -/
inductive StoredPayload where
  | ok (s : SerializedMap)
  | corrupt
deriving DecidableEq, Repr

/-- `MapPersistence.load`.  The input is `localStorage.getItem`'s result
(`none` = nothing stored).  The first component is the returned value; the
second records whether the `catch` branch reported a failure via
`console.error('Failed to load map')` — the only observable difference
between the two `null`-returning paths. -/
def MapPersistence.load : Option StoredPayload → Option WorldMap × Bool
  | none => (none, false)
  | some .corrupt => (none, true)
  | some (.ok s) => (some (MapPersistence.reconstruct s), false)

/-! ## RoadGenerator.ts : movement cost -/

/-- The biome multiplier switch inside `RoadGenerator.getMovementCost`
(default `1.0` for biomes not listed). -/
def RoadGenerator.biomePenalty (biome : ℕ) : ℚ :=
  if biome = BiomeType.DESERT then 6 / 5
  else if biome = BiomeType.SWAMP then 3
  else if biome = BiomeType.MOUNTAIN then 4
  else if biome = BiomeType.SNOW then 5
  else if biome = BiomeType.DENSE_FOREST then 3 / 2
  else if biome = BiomeType.FOREST then 6 / 5
  else if biome = BiomeType.GRASSLAND then 1
  else if biome = BiomeType.BEACH then 6 / 5
  else 1

/-- `RoadGenerator.dist`: Euclidean distance between two cell centers,
through the `Math.sqrt` oracle. -/
def RoadGenerator.dist (sqrtQ : ℚ → ℚ) (points : List ℚ) (id1 id2 : ℕ) : ℚ :=
  let x1 := points.getD (id1 * 2) 0
  let y1 := points.getD (id1 * 2 + 1) 0
  let x2 := points.getD (id2 * 2) 0
  let y2 := points.getD (id2 * 2 + 1) 0
  sqrtQ ((x2 - x1) ^ 2 + (y2 - y1) ^ 2)

/-- `RoadGenerator.getMovementCost`: `none` models the `Infinity` return for
impassable ocean (`toH < 0.2`); otherwise distance times the biome penalty
of the destination plus `slope * 500`. -/
def RoadGenerator.getMovementCost (sqrtQ : ℚ → ℚ) (points heights : List ℚ)
    (biomes : List ℕ) (fromId toId : ℕ) : Option ℚ :=
  let fromH := heights.getD fromId 0
  let toH := heights.getD toId 0
  let biome := biomes.getD toId 0
  if toH < 1 / 5 then none
  else
    let d := RoadGenerator.dist sqrtQ points fromId toId
    let slope := |toH - fromH|
    let slopePenalty := slope * 500
    some (d * RoadGenerator.biomePenalty biome + slopePenalty)

/-! ## CanvasRenderer.ts tools -/

/-- A pointer event delivered to a tool (`ToolEvent`): world coordinates,
the located cell (`-1` when point location failed), drag flag folded away
(the paint handlers behave identically per stroke sample). -/
structure ToolEvent where
  x : ℚ
  y : ℚ
  cellId : ℤ
deriving DecidableEq, Repr

/-- `Math.min(1, Math.max(0, v))`. -/
def clamp01 (v : ℚ) : ℚ := min 1 (max 0 v)

/-- The single scan step of `HeightPaintTool.paint`: for index `i`, if the
squared distance to the brush center is within `radius²`, apply the linear
falloff height change (clamped to `[0,1]`) and record `i` as affected. -/
def HeightPaintTool.paintStep (sqrtQ : ℚ → ℚ) (points : List ℚ)
    (cx cy radius intensity : ℚ) (acc : List ℚ × List ℕ) (i : ℕ) :
    List ℚ × List ℕ :=
  let dx := points.getD (i * 2) 0 - cx
  let dy := points.getD (i * 2 + 1) 0 - cy
  let distSq := dx * dx + dy * dy
  if distSq ≤ radius * radius then
    let distance := sqrtQ distSq
    let falloff := 1 - distance / radius
    let heightChange := intensity * falloff
    (acc.1.set i (clamp01 (acc.1.getD i 0 + heightChange)), acc.2 ++ [i])
  else acc

/-- `HeightPaintTool.paint` (the store-driven variant of
`CanvasRenderer.ts`, lines 204–254): one stroke sample.  `radius` is the
brush size and `intensity` the signed intensity (`altKey` flips the sign at
the call site).  One pass updates heights and collects affected cells; a
second pass recomputes the biome of exactly the affected cells from their
new height and their fixed moisture sample. -/
def HeightPaintTool.paint (ext : MapExt) (m : WorldMap) (radius intensity : ℚ)
    (e : ToolEvent) : WorldMap :=
  if e.cellId = -1 then m
  else
    let centerCell := e.cellId.toNat
    let cx := m.points.getD (centerCell * 2) 0
    let cy := m.points.getD (centerCell * 2 + 1) 0
    let scan := (List.range m.cells.heights.length).foldl
      (HeightPaintTool.paintStep ext.sqrtQ m.points cx cy radius intensity)
      (m.cells.heights, [])
    let noise := (ext.mkNoise (ext.alea (m.seed + 1)) 0).1
    let biomes2 := scan.2.foldl
      (fun bs i => bs.set i (TerrainGenerator.updateCellBiome noise
        (m.points.getD (i * 2) 0) (m.points.getD (i * 2 + 1) 0)
        (scan.1.getD i 0)))
      m.cells.biomes
    { m with cells := { m.cells with heights := scan.1, biomes := biomes2 } }

/-- Syllable table `SYLLABLES.starts` of `CityGenerator.ts`. -/
def cityStarts : List String :=
  ["A", "Ba", "Ca", "Da", "E", "Fa", "Ga", "Ha", "I", "Ja", "Ka", "La", "Ma",
   "Na", "O", "Pa", "Ra", "Sa", "Ta", "U", "Va", "Wa", "Za"]

/-- Syllable table `SYLLABLES.middles` of `CityGenerator.ts`. -/
def cityMiddles : List String :=
  ["bel", "cor", "dan", "ell", "fal", "gar", "has", "ion", "jor", "kil",
   "lum", "mon", "nor", "oth", "pel", "qui", "ror", "sun", "til", "un",
   "vel", "wen", "xan", "yor", "zel"]

/-- Syllable table `SYLLABLES.ends` of `CityGenerator.ts`. -/
def cityEnds : List String :=
  ["ia", "is", "on", "um", "en", "ar", "os", "ia", "eth", "ord", "ast",
   "ell", "ant", "ock", "ham", "ton", "field", "bury", "ford", "wood",
   "mont", "port", "stead"]

/-- `generateCityName` of `CityGenerator.ts`: 2-syllable shape with
probability `prng() > 0.3`, otherwise 3 syllables; fragments are indexed by
`⌊prng() * table.length⌋`.  Returns the name and the advanced cursor. -/
def generateCityName (g : ℕ → ℚ) (r : ℕ) : String × ℕ :=
  let len : ℕ := if g r > 3 / 10 then 2 else 3
  let nm := cityStarts.getD (⌊g (r + 1) * (cityStarts.length : ℚ)⌋).toNat ""
  if len = 3 then
    let nm2 := nm ++ cityMiddles.getD (⌊g (r + 2) * (cityMiddles.length : ℚ)⌋).toNat ""
    (nm2 ++ cityEnds.getD (⌊g (r + 3) * (cityEnds.length : ℚ)⌋).toNat "", r + 4)
  else
    (nm ++ cityEnds.getD (⌊g (r + 2) * (cityEnds.length : ℚ)⌋).toNat "", r + 3)

/-- `CityPlacerTool.onMouseDown` (`CanvasRenderer.ts`, lines 294–325).
`rnd` is the `Math.random` stream used by the tool's local `prng`.  Rejects
unlocated cells, ocean cells (`height < 0.2`) and already occupied cells;
otherwise appends one new city and post-increments `nextId.city`. -/
def CityPlacerTool.onMouseDown (rnd : ℕ → ℚ) (m : WorldMap) (e : ToolEvent) :
    WorldMap :=
  if e.cellId = -1 then m
  else
    let cid := e.cellId.toNat
    if m.cells.heights.getD cid 0 < 1 / 5 then m
    else if m.cities.any fun c => c.cellId = cid then m
    else
      let r0 := rnd 0
      let ctype : CityType :=
        if r0 > 4 / 5 then .Capital else if r0 > 3 / 10 then .Town else .Village
      let nameRes := generateCityName rnd 1
      let popMul : ℚ :=
        match ctype with
        | .Capital => 50000
        | .Town => 5000
        | .Village => 500
      let popAdd : ℤ :=
        match ctype with
        | .Capital => 10000
        | .Town => 1000
        | .Village => 100
      let newCity : City :=
        { id := m.nextId.city
          cellId := cid
          name := nameRes.1
          population := ⌊rnd nameRes.2 * popMul⌋ + popAdd
          type := ctype }
      { m with
          cities := m.cities ++ [newCity]
          nextId := { m.nextId with city := m.nextId.city + 1 } }

/-! ## MapCanvas.tsx : deleteElement -/

/-- The element selected in the edit dialog (`editingElement`), carrying the
fields of `data` that `deleteElement` reads. -/
inductive EditTarget where
  | city (id : ℕ)
  | castle (id : ℕ)
  | marker (id : ℕ)
  | state (id : ℕ) (name : String)
deriving DecidableEq, Repr

/-- JS `String.prototype.includes`: `pat` occurs as a substring of `s`
(splitting on a non-empty pattern yields more than one fragment exactly when
the pattern occurs). -/
def strIncludes (s pat : String) : Bool := (s.splitOn pat).length ≠ 1

/-- The capital marker substring `"(Capital of " + name + ")"` used by
`deleteElement` and by `CityGenerator`. -/
def capitalMarker (stateName : String) : String :=
  "(Capital of " ++ stateName ++ ")"

/-- `deleteElement` of `MapCanvas.tsx` (lines 279–306): deleting a state
unclaims its cells, removes cities named as its capital, and removes the
state itself; the other variants filter one entity list by id. -/
def deleteElement (m : WorldMap) : EditTarget → WorldMap
  | .city cid => { m with cities := m.cities.filter fun c => c.id ≠ cid }
  | .castle cid => { m with castles := m.castles.filter fun c => c.id ≠ cid }
  | .marker mid => { m with markers := m.markers.filter fun mk => mk.id ≠ mid }
  | .state sid sname =>
      { m with
          cells := { m.cells with
            states := m.cells.states.map fun v => if v = sid then 0 else v }
          cities := m.cities.filter fun c => !strIncludes c.name (capitalMarker sname)
          states := m.states.filter fun s => s.id ≠ sid }

/-! ## StateGenerator.ts -/

/-- `STATE_COLORS` of `StateGenerator.ts`. -/
def STATE_COLORS : List String :=
  ["#8B4513", "#2E8B57", "#4682B4", "#9932CC", "#CD853F", "#556B2F",
   "#6B8E23", "#8B0000", "#483D8B", "#2F4F4F", "#B8860B", "#008B8B",
   "#704214", "#3B5323", "#1E3A5F"]

/-- `NAME_PARTS.prefixes` of `StateGenerator.ts`. -/
def statePrefixParts : List String :=
  ["Nor", "Sou", "Eas", "Wes", "Val", "Mor", "Kar", "Eld", "Ara", "Gor",
   "Bel", "Cal", "Dra", "Era", "Fen"]

/-- `NAME_PARTS.middles` of `StateGenerator.ts`. -/
def stateMiddleParts : List String :=
  ["an", "el", "or", "ar", "en", "ir", "al", "on", "un", "eth", "ath"]

/-- `NAME_PARTS.suffixes` of `StateGenerator.ts`. -/
def stateSuffixParts : List String :=
  ["ia", "or", "and", "heim", "land", "mark", "gor", "dale", "hold", "mere",
   "dom", "ria", "cia", "via"]

/-- `generateStateName` of `StateGenerator.ts`: prefix, optional middle
(probability `prng() > 0.5`), suffix.  Returns the name and the advanced
cursor. -/
def generateStateName (g : ℕ → ℚ) (r : ℕ) : String × ℕ :=
  let pre := statePrefixParts.getD (⌊g r * (statePrefixParts.length : ℚ)⌋).toNat ""
  if g (r + 1) > 1 / 2 then
    let mid := stateMiddleParts.getD (⌊g (r + 2) * (stateMiddleParts.length : ℚ)⌋).toNat ""
    (pre ++ mid ++ stateSuffixParts.getD (⌊g (r + 3) * (stateSuffixParts.length : ℚ)⌋).toNat "",
     r + 4)
  else
    (pre ++ "" ++ stateSuffixParts.getD (⌊g (r + 2) * (stateSuffixParts.length : ℚ)⌋).toNat "",
     r + 3)

/-- The land-cell scan of `StateGenerator.generate`: cells with elevation
strictly above `0.25`. -/
def StateGenerator.landCells (heights : List ℚ) : List ℕ :=
  (List.range heights.length).filter fun i => 1 / 4 < heights.getD i 0

/-- The spacing test of the seed-selection loop: the candidate is too close
when its distance to some already accepted seed is below
`min(width, height) / (numStates * 1.5)`. -/
def StateGenerator.tooClose (sqrtQ : ℚ → ℚ) (points : List ℚ)
    (width height : ℚ) (numStates : ℕ) (cand : ℕ) (seeds : List ℕ) : Bool :=
  seeds.any fun s =>
    let cellX := points.getD (cand * 2) 0
    let cellY := points.getD (cand * 2 + 1) 0
    let seedX := points.getD (s * 2) 0
    let seedY := points.getD (s * 2 + 1) 0
    let d := sqrtQ ((cellX - seedX) ^ 2 + (cellY - seedY) ^ 2)
    d < min width height / ((numStates : ℚ) * (3 / 2))

/-- The seed-selection loop of `StateGenerator.generate`: walk the shuffled
land cells, stop at `numStates` accepted seeds, reject candidates that are
too close to an accepted seed. -/
def StateGenerator.selectLoop (sqrtQ : ℚ → ℚ) (points : List ℚ)
    (width height : ℚ) (numStates : ℕ) : List ℕ → List ℕ → List ℕ
  | [], acc => acc
  | c :: rest, acc =>
      if numStates ≤ acc.length then acc
      else if StateGenerator.tooClose sqrtQ points width height numStates c acc then
        StateGenerator.selectLoop sqrtQ points width height numStates rest acc
      else
        StateGenerator.selectLoop sqrtQ points width height numStates rest (acc ++ [c])

/-- The seed cells chosen by `StateGenerator.generate` for a given world:
shuffle the land cells through the engine's random-comparator sort, then run
the spacing-constrained selection. -/
def StateGenerator.seedCells (ext : MapExt) (m : WorldMap) (numStates : ℕ)
    (seed : ℤ) : List ℕ :=
  let g := ext.alea seed
  let shuffled := (ext.jsSortRandom g 0 (StateGenerator.landCells m.cells.heights)).1
  StateGenerator.selectLoop ext.sqrtQ m.points m.width m.height numStates shuffled []

/-- The state of one state's turn inside the growth round: the shared cell
ownership array, the state's own queue (already dequeued), its running
`cellCount`, the PRNG cursor and the `active` flag. -/
structure TurnSt where
  cellStates : List ℕ
  queue : List ℕ
  count : ℕ
  r : ℕ
  active : Bool
deriving Repr

/-- The inner `for (const neighbor of neighbors)` loop of the growth round:
skip claimed or ocean neighbours; claim with probability `0.85` (push the
neighbour); otherwise push the current cell back and stop processing this
cell's neighbours. -/
def StateGenerator.claimNeighbors (g : ℕ → ℚ) (heights : List ℚ) (sid cur : ℕ) :
    List ℕ → TurnSt → TurnSt
  | [], t => t
  | nb :: rest, t =>
      if t.cellStates.getD nb 0 ≠ 0 then
        StateGenerator.claimNeighbors g heights sid cur rest t
      else if heights.getD nb 0 ≤ 1 / 5 then
        StateGenerator.claimNeighbors g heights sid cur rest t
      else if g t.r < 17 / 20 then
        StateGenerator.claimNeighbors g heights sid cur rest
          { cellStates := t.cellStates.set nb sid
            queue := t.queue ++ [nb]
            count := t.count + 1
            r := t.r + 1
            active := true }
      else
        { t with queue := t.queue ++ [cur], r := t.r + 1, active := true }

/-- The shared growth state: cell ownership, one FIFO queue and one running
cell count per state, and the PRNG cursor. -/
structure GrowSt where
  cellStates : List ℕ
  queues : List (List ℕ)
  counts : List ℕ
  r : ℕ
deriving Repr

/-- One state's slice of a growth round: dequeue one cell (if any) and
process its mesh neighbours.  Returns the updated state and whether this
slice set the `active` flag. -/
def StateGenerator.stateTurn (g : ℕ → ℚ) (heights : List ℚ)
    (nbrs : ℕ → List ℕ) (sids : List ℕ) (k : ℕ) (st : GrowSt) :
    GrowSt × Bool :=
  match st.queues.getD k [] with
  | [] => (st, false)
  | cur :: qrest =>
      let t := StateGenerator.claimNeighbors g heights (sids.getD k 0) cur
        (nbrs cur)
        { cellStates := st.cellStates, queue := qrest,
          count := st.counts.getD k 0, r := st.r, active := false }
      ({ cellStates := t.cellStates
         queues := st.queues.set k t.queue
         counts := st.counts.set k t.count
         r := t.r }, t.active)

/-- One full round of the growth loop: each state processes one cell. -/
def StateGenerator.growRound (g : ℕ → ℚ) (heights : List ℚ)
    (nbrs : ℕ → List ℕ) (sids : List ℕ) (st : GrowSt) : GrowSt × Bool :=
  (List.range sids.length).foldl
    (fun acc k =>
      let res := StateGenerator.stateTurn g heights nbrs sids k acc.1
      (res.1, acc.2 || res.2))
    (st, false)

/-- The `while (active)` growth loop, bounded by fuel. -/
def StateGenerator.growLoop (g : ℕ → ℚ) (heights : List ℚ)
    (nbrs : ℕ → List ℕ) (sids : List ℕ) : ℕ → GrowSt → GrowSt
  | 0, st => st
  | fuel + 1, st =>
      let res := StateGenerator.growRound g heights nbrs sids st
      if res.2 then StateGenerator.growLoop g heights nbrs sids fuel res.1
      else res.1

/-- The post-growth recentering scan of `StateGenerator.generate`: recompute
a state's centroid and cell count from the final ownership array (skipped
when the state owns no cell). -/
def StateGenerator.recenter (points : List ℚ) (cellStates : List ℕ)
    (numCells : ℕ) (s : State) : State :=
  let owned := (List.range numCells).filter fun i => cellStates.getD i 0 = s.id
  let count := owned.length
  if 0 < count then
    { s with
        centerX := (owned.foldl (fun acc i => acc + points.getD (i * 2) 0) 0) / count
        centerY := (owned.foldl (fun acc i => acc + points.getD (i * 2 + 1) 0) 0) / count
        cellCount := count }
  else s

/-- The state-record initialisation loop of `StateGenerator.generate`: for
the `i`-th seed cell, claim it with state id `i + 1`, draw a name, pick the
`i`-th colour, seed the centroid at the seed cell. -/
def StateGenerator.initStep (g : ℕ → ℚ) (points : List ℚ) (seeds : List ℕ)
    (acc : List State × List ℕ × ℕ) (i : ℕ) : List State × List ℕ × ℕ :=
  let seedCell := seeds.getD i 0
  let nameRes := generateStateName g acc.2.2
  (acc.1 ++ [{ id := i + 1
               name := nameRes.1
               color := STATE_COLORS.getD (i % STATE_COLORS.length) ""
               capitalId := -1
               centerX := points.getD (seedCell * 2) 0
               centerY := points.getD (seedCell * 2 + 1) 0
               cellCount := 1 }],
   acc.2.1.set seedCell (i + 1), nameRes.2)

/-- The state-record initialisation loop of `StateGenerator.generate`: for
the `i`-th seed cell, claim it with state id `i + 1`, draw a name, pick the
`i`-th colour, seed the centroid at the seed cell (see
`StateGenerator.initStep`). -/
def StateGenerator.initStates (g : ℕ → ℚ) (points : List ℚ) (seeds : List ℕ)
    (cellStates0 : List ℕ) (r0 : ℕ) : List State × List ℕ × ℕ :=
  (List.range seeds.length).foldl (StateGenerator.initStep g points seeds)
    ([], cellStates0, r0)

/-- Fuel used for the growth loop (the source's `while (active)` loop; any
bound large enough for the finite world is observationally equivalent, and
the theorems below hold for every fuel). -/
def StateGenerator.growFuel (numCells numStates : ℕ) : ℕ :=
  (numCells + numStates + 1) * (numCells + 1)

/-- `StateGenerator.generate`: returns the state list and the updated
per-cell ownership array (the source mutates `map.cells.states` in place).
Too little land yields no states. -/
def StateGenerator.generate (ext : MapExt) (m : WorldMap) (numStates : ℕ)
    (seed : ℤ) : List State × List ℕ :=
  let g := ext.alea seed
  let numCells := m.cells.heights.length
  let land := StateGenerator.landCells m.cells.heights
  if land.length < numStates then ([], m.cells.states)
  else
    let sortRes := ext.jsSortRandom g 0 land
    let seeds := StateGenerator.selectLoop ext.sqrtQ m.points m.width m.height
      numStates sortRes.1 []
    let ini := StateGenerator.initStates g m.points seeds m.cells.states sortRes.2
    let states0 := ini.1
    let nbrs := ext.delaunayNeighbors m.points
    let grown := StateGenerator.growLoop g m.cells.heights nbrs
      (states0.map State.id) (StateGenerator.growFuel numCells numStates)
      { cellStates := ini.2.1
        queues := seeds.map fun c => [c]
        counts := List.replicate seeds.length 1
        r := ini.2.2 }
    let states1 := (List.range states0.length).map fun k =>
      let s := states0.getD k
        { id := 0, name := "", color := "", capitalId := -1,
          centerX := 0, centerY := 0, cellCount := 1 }
      StateGenerator.recenter m.points grown.cellStates numCells
        { s with cellCount := grown.counts.getD k 0 }
    (states1, grown.cellStates)

/-! ## RiverGenerator.ts -/

/-- One neighbour inspection inside `traceRiver`'s scan: skip visited
neighbours, otherwise keep a neighbour whose height is `≤` the running
minimum. -/
def RiverGenerator.lnStep (heights : List ℚ) (visited : List ℕ)
    (acc : ℤ × ℚ) (nId : ℕ) : ℤ × ℚ :=
  if visited.contains nId then acc
  else
    let h := heights.getD nId 0
    if h ≤ acc.2 then ((nId : ℤ), h) else acc

/-- The neighbour scan inside `traceRiver`: among unvisited neighbours, keep
the last one whose height is `≤` the running minimum (initialised to the
current cell's height).  Returns `-1` when no such neighbour exists. -/
def RiverGenerator.lowestNeighbor (heights : List ℚ) (visited : List ℕ)
    (cur : ℕ) (neighbors : List ℕ) : ℤ × ℚ :=
  neighbors.foldl (RiverGenerator.lnStep heights visited)
    (-1, heights.getD cur 0)

/-- The `while (true)` descent of `traceRiver`, bounded by fuel: move to the
selected lower neighbour, mark it visited, stop at a dead end or once the
height drops below `0.2`. -/
def RiverGenerator.traceGo (nbrs : ℕ → List ℕ) (heights : List ℚ) :
    ℕ → ℕ → List ℕ → List ℕ → List ℕ
  | 0, _, _, path => path
  | fuel + 1, cur, visited, path =>
      let sel := RiverGenerator.lowestNeighbor heights visited cur (nbrs cur)
      if sel.1 = -1 ∨ sel.1 = (cur : ℤ) then path
      else
        let nxt := sel.1.toNat
        let path2 := path ++ [nxt]
        if heights.getD nxt 0 < 1 / 5 then path2
        else RiverGenerator.traceGo nbrs heights fuel nxt (visited ++ [nxt]) path2

/-- `RiverGenerator.traceRiver`: trace downhill from a source cell.  The
visited set bounds the path by the cell count, so `heights.length + 1` fuel
is observationally the same as the source's unbounded loop. -/
def RiverGenerator.traceRiver (nbrs : ℕ → List ℕ) (heights : List ℚ)
    (startId : ℕ) : List ℕ :=
  RiverGenerator.traceGo nbrs heights (heights.length + 1) startId [startId] [startId]

/-- The cell-center polyline of a traced path. -/
def RiverGenerator.pathPoints (points : List ℚ) (path : List ℕ) : List Point :=
  path.map fun id => ⟨points.getD (id * 2) 0, points.getD (id * 2 + 1) 0⟩

/-- The `while (created < count && attempts < candidates.length)` loop of
`RiverGenerator.generate`: consume shuffled candidates, retaining a trace
only when it is longer than 5 cells and ends below sea level. -/
def RiverGenerator.riverLoop (g : ℕ → ℚ) (nbrs : ℕ → List ℕ)
    (points heights : List ℚ) (count : ℕ) :
    List ℕ → ℕ → ℕ → List River → List River
  | [], _, _, acc => acc
  | startId :: rest, created, r, acc =>
      if count ≤ created then acc
      else
        let path := RiverGenerator.traceRiver nbrs heights startId
        if 5 < path.length ∧ heights.getD (path.getLastD 0) 0 < 1 / 5 then
          RiverGenerator.riverLoop g nbrs points heights count rest (created + 1)
            (r + 1)
            (acc ++ [{ id := "river-" ++ toString created
                       points := RiverGenerator.pathPoints points path
                       width := 2 + g r * 2 }])
        else RiverGenerator.riverLoop g nbrs points heights count rest created r acc

/-- `RiverGenerator.generate`: rivers flow from shuffled highland candidates
(`0.6 < h < 0.95`), using the dedicated stream seeded with `seed + 233`. -/
def RiverGenerator.generate (ext : MapExt) (m : WorldMap) (seed : ℤ)
    (count : ℕ) : List River :=
  let g := ext.alea (seed + 233)
  let candidates := (List.range m.cells.heights.length).filter fun i =>
    let h := m.cells.heights.getD i 0
    3 / 5 < h ∧ h < 19 / 20
  let shuffled := fisherYates g candidates 0
  RiverGenerator.riverLoop g (ext.voronoiNeighbors m.points) m.points
    m.cells.heights count shuffled.1 0 shuffled.2 []

/-! ## CityGenerator.ts -/

/-- The capital-cell scan of `CityGenerator.generate`: walk all cells in
ascending id order keeping the first strict maximum height among the cells
owned by the state (`(-1, -1)` when the state owns no cell of height above
`-1`). -/
def CityGenerator.capStep (heights : List ℚ) (cellStates : List ℕ) (sid : ℕ)
    (acc : ℤ × ℚ) (i : ℕ) : ℤ × ℚ :=
  if cellStates.getD i 0 = sid ∧ acc.2 < heights.getD i 0 then
    ((i : ℤ), heights.getD i 0)
  else acc

/-- See the docstring of `CityGenerator.findCapitalCell` below; `capStep`
above is its per-cell comparison. -/
def CityGenerator.findCapitalCell (heights : List ℚ) (cellStates : List ℕ)
    (sid : ℕ) : ℤ × ℚ :=
  (List.range heights.length).foldl (CityGenerator.capStep heights cellStates sid)
    (-1, -1)

/-- The capital-placement loop of `CityGenerator.generate`: one capital per
state that owns at least one cell, at the state's highest cell, with the
owning state's name embedded; sets `state.capitalId`. -/
def CityGenerator.capitalsLoop (g : ℕ → ℚ) (heights : List ℚ)
    (cellStates : List ℕ) :
    List State → List City × List State × ℕ × ℕ → List City × List State × ℕ × ℕ
  | [], acc => acc
  | s :: rest, (cities, statesAcc, nextId, r) =>
      let best := CityGenerator.findCapitalCell heights cellStates s.id
      if best.1 = -1 then
        CityGenerator.capitalsLoop g heights cellStates rest
          (cities, statesAcc ++ [s], nextId, r)
      else
        let nameRes := generateCityName g r
        let capital : City :=
          { id := nextId
            cellId := best.1.toNat
            name := nameRes.1 ++ " " ++ capitalMarker s.name
            population := ⌊g nameRes.2 * 50000⌋ + 10000
            type := .Capital }
        CityGenerator.capitalsLoop g heights cellStates rest
          (cities ++ [capital],
           statesAcc ++ [{ s with capitalId := (nextId : ℤ) }],
           nextId + 1, nameRes.2 + 1)

/-- The town-placement loop: `numTowns` draws without replacement from the
unoccupied land-cell pool (splice semantics). -/
def CityGenerator.townsLoop (g : ℕ → ℚ) :
    ℕ → List ℕ → List City → ℕ → ℕ → List City × List ℕ × ℕ × ℕ
  | 0, pool, cities, nextId, r => (cities, pool, nextId, r)
  | cnt + 1, pool, cities, nextId, r =>
      if pool.length = 0 then (cities, pool, nextId, r)
      else
        let idx := (⌊g r * (pool.length : ℚ)⌋).toNat
        let cellId := pool.getD idx 0
        let pool2 := pool.take idx ++ pool.drop (idx + 1)
        let nameRes := generateCityName g (r + 1)
        CityGenerator.townsLoop g cnt pool2
          (cities ++ [{ id := nextId
                        cellId := cellId
                        name := nameRes.1
                        population := ⌊g nameRes.2 * 5000⌋ + 2000
                        type := .Town }])
          (nextId + 1) (nameRes.2 + 1)

/-- The village-placement loop: like towns, from the remaining pool, with a
lowercased name and a smaller population. -/
def CityGenerator.villagesLoop (g : ℕ → ℚ) :
    ℕ → List ℕ → List City → ℕ → ℕ → List City × List ℕ × ℕ × ℕ
  | 0, pool, cities, nextId, r => (cities, pool, nextId, r)
  | cnt + 1, pool, cities, nextId, r =>
      if pool.length = 0 then (cities, pool, nextId, r)
      else
        let idx := (⌊g r * (pool.length : ℚ)⌋).toNat
        let cellId := pool.getD idx 0
        let pool2 := pool.take idx ++ pool.drop (idx + 1)
        let nameRes := generateCityName g (r + 1)
        CityGenerator.villagesLoop g cnt pool2
          (cities ++ [{ id := nextId
                        cellId := cellId
                        name := nameRes.1.toLower
                        population := ⌊g nameRes.2 * 500⌋ + 100
                        type := .Village }])
          (nextId + 1) (nameRes.2 + 1)

/-- The capital-placement stage of `CityGenerator.generate`: run the loop
from an empty city list with `nextId = 1`. -/
def CityGenerator.capitalsStage (ext : MapExt) (m : WorldMap) (seed : ℤ) :
    List City × List State × ℕ × ℕ :=
  CityGenerator.capitalsLoop (ext.alea seed) m.cells.heights m.cells.states
    m.states ([], [], 1, 0)

/-- `numTowns` of `CityGenerator.generate`: roughly one town per 1000 land
cells (floor division). -/
def CityGenerator.numTowns (m : WorldMap) : ℕ :=
  (m.cells.heights.filter fun h => 1 / 5 < h).length / 1000

/-- The `landCells` pool of `CityGenerator.generate`: land cells not already
hosting a city placed so far (the capitals). -/
def CityGenerator.townPool (ext : MapExt) (m : WorldMap) (seed : ℤ) :
    List ℕ :=
  (List.range m.cells.heights.length).filter fun i =>
    1 / 5 < m.cells.heights.getD i 0 ∧
    ¬ (CityGenerator.capitalsStage ext m seed).1.any fun c => c.cellId = i

/-- The town-placement stage of `CityGenerator.generate`. -/
def CityGenerator.townsStage (ext : MapExt) (m : WorldMap) (seed : ℤ) :
    List City × List ℕ × ℕ × ℕ :=
  CityGenerator.townsLoop (ext.alea seed) (CityGenerator.numTowns m)
    (CityGenerator.townPool ext m seed) (CityGenerator.capitalsStage ext m seed).1
    (CityGenerator.capitalsStage ext m seed).2.2.1
    (CityGenerator.capitalsStage ext m seed).2.2.2

/-- The village-placement stage of `CityGenerator.generate`: twice the town
count, from the remaining pool. -/
def CityGenerator.villagesStage (ext : MapExt) (m : WorldMap) (seed : ℤ) :
    List City × List ℕ × ℕ × ℕ :=
  CityGenerator.villagesLoop (ext.alea seed) (CityGenerator.numTowns m * 2)
    (CityGenerator.townsStage ext m seed).2.1
    (CityGenerator.townsStage ext m seed).1
    (CityGenerator.townsStage ext m seed).2.2.1
    (CityGenerator.townsStage ext m seed).2.2.2

/-- `CityGenerator.generate`: capitals, then roughly one town per 1000 land
cells, then twice as many villages.  Returns the city list and the updated
state records (the source mutates `map.states[..].capitalId` in place). -/
def CityGenerator.generate (ext : MapExt) (m : WorldMap) (seed : ℤ) :
    List City × List State :=
  ((CityGenerator.villagesStage ext m seed).1,
   (CityGenerator.capitalsStage ext m seed).2.1)

/-! ## RoadGenerator.ts : network building -/

/-- The A* bookkeeping of `RoadGenerator.findPath`: insertion-ordered open
set (JS `Set` iteration order) and the three maps. -/
structure AStarSt where
  openSet : List ℕ
  cameFrom : ℕ → Option ℕ
  gScore : ℕ → Option ℚ
  fScore : ℕ → Option ℚ

/-- The open-set minimum scan: walk the open set in insertion order keeping
the first node of strictly smallest `fScore` (missing scores count as
`Infinity`, modelled as never strictly smaller). -/
def RoadGenerator.lowestF (st : AStarSt) : ℤ :=
  (st.openSet.foldl
    (fun acc id =>
      match st.fScore id with
      | none => acc
      | some score =>
          match acc.2 with
          | none => ((id : ℤ), some score)
          | some minF => if score < minF then ((id : ℤ), some score) else acc)
    ((-1 : ℤ), (none : Option ℚ))).1

/-- One neighbour relaxation of the A* loop. -/
def RoadGenerator.relax (sqrtQ : ℚ → ℚ) (points heights : List ℚ)
    (biomes : List ℕ) (endId cur : ℕ) (st : AStarSt) (neighbor : ℕ) : AStarSt :=
  match RoadGenerator.getMovementCost sqrtQ points heights biomes cur neighbor with
  | none => st
  | some moveCost =>
      match st.gScore cur with
      | none => st
      | some gCur =>
          let tentativeG := gCur + moveCost
          let better :=
            match st.gScore neighbor with
            | none => true
            | some gNb => tentativeG < gNb
          if better then
            { openSet :=
                if st.openSet.contains neighbor then st.openSet
                else st.openSet ++ [neighbor]
              cameFrom := fun x => if x = neighbor then some cur else st.cameFrom x
              gScore := fun x => if x = neighbor then some tentativeG else st.gScore x
              fScore := fun x =>
                if x = neighbor then
                  some (tentativeG + RoadGenerator.dist sqrtQ points neighbor endId)
                else st.fScore x }
          else st

/-- `RoadGenerator.reconstructPath`, bounded by fuel (the `cameFrom` chain of
the source is acyclic). -/
def RoadGenerator.reconstructPath (cameFrom : ℕ → Option ℕ) :
    ℕ → ℕ → List ℕ → List ℕ
  | 0, _, acc => acc
  | fuel + 1, cur, acc =>
      match cameFrom cur with
      | none => acc
      | some prev => RoadGenerator.reconstructPath cameFrom fuel prev (prev :: acc)

/-- The `while (openSet.size > 0)` loop of `RoadGenerator.findPath`,
bounded by fuel. -/
def RoadGenerator.astarLoop (sqrtQ : ℚ → ℚ) (points heights : List ℚ)
    (biomes : List ℕ) (nbrs : ℕ → List ℕ) (endId : ℕ) :
    ℕ → AStarSt → List ℕ
  | 0, _ => []
  | fuel + 1, st =>
      if st.openSet.isEmpty then []
      else
        let current := RoadGenerator.lowestF st
        if current = (endId : ℤ) then
          RoadGenerator.reconstructPath st.cameFrom (fuel + 1) endId [endId]
        else if current = -1 then []
        else
          let cur := current.toNat
          let st1 := { st with openSet := st.openSet.filter fun x => x ≠ cur }
          let st2 := (nbrs cur).foldl
            (RoadGenerator.relax sqrtQ points heights biomes endId cur) st1
          RoadGenerator.astarLoop sqrtQ points heights biomes nbrs endId fuel st2

/-- `RoadGenerator.findPath`: A* from `startId` to `endId` over the mesh
adjacency with the movement cost above; `[]` when no path is found. -/
def RoadGenerator.findPath (sqrtQ : ℚ → ℚ) (points heights : List ℚ)
    (biomes : List ℕ) (nbrs : ℕ → List ℕ) (startId endId : ℕ) : List ℕ :=
  RoadGenerator.astarLoop sqrtQ points heights biomes nbrs endId
    ((heights.length + 1) * (heights.length + 1))
    { openSet := [startId]
      cameFrom := fun _ => none
      gScore := fun x => if x = startId then some 0 else none
      fScore := fun x =>
        if x = startId then some (RoadGenerator.dist sqrtQ points startId endId)
        else none }

/-- The JS two-element `[a, b].sort().join('-')` connection key: default
`Array.sort` compares the decimal string forms. -/
def RoadGenerator.connKey (a b : ℕ) : String :=
  if toString b < toString a then toString b ++ "-" ++ toString a
  else toString a ++ "-" ++ toString b

/-- The per-hub edge construction of `RoadGenerator.generate`: connect a hub
to its two nearest hubs (stable ascending sort by distance), skipping
already recorded unordered pairs, emitting a road per found path. -/
def RoadGenerator.hubEdges (sqrtQ : ℚ → ℚ) (points heights : List ℚ)
    (biomes : List ℕ) (nbrs : ℕ → List ℕ) (hubs : List City) :
    List String × List Road :=
  hubs.foldl
    (fun acc hub =>
      let ranked := ((hubs.filter fun other => other.id ≠ hub.id).map
        fun other => (other, RoadGenerator.dist sqrtQ points hub.cellId other.cellId))
        |>.mergeSort (fun a b => decide (a.2 ≤ b.2)) |>.take 2
      ranked.foldl
        (fun acc2 n =>
          let key := RoadGenerator.connKey hub.id n.1.id
          if acc2.1.contains key then acc2
          else
            let path := RoadGenerator.findPath sqrtQ points heights biomes nbrs
              hub.cellId n.1.cellId
            if 0 < path.length then
              (acc2.1 ++ [key],
               acc2.2 ++ [{ id := "road-" ++ key
                            points := path.map fun pid =>
                              ⟨points.getD (pid * 2) 0, points.getD (pid * 2 + 1) 0⟩
                            type := .trade }])
            else (acc2.1 ++ [key], acc2.2))
        acc)
    ([], [])

/-- `RoadGenerator.generate`: trade roads between each Capital/Town hub and
its two nearest hubs. -/
def RoadGenerator.generate (ext : MapExt) (m : WorldMap) (cities : List City) :
    List Road :=
  if cities.length < 2 then []
  else
    let hubs := cities.filter fun c => c.type = .Capital ∨ c.type = .Town
    (RoadGenerator.hubEdges ext.sqrtQ m.points m.cells.heights m.cells.biomes
      (ext.voronoiNeighbors m.points) hubs).2

/-! ## MapGenerator.ts : the pipeline -/

/-- The random point scatter of `MapGenerator.generate`: `x = prng()*width`,
`y = prng()*height` per cell, consuming two draws per cell. -/
def MapGenerator.scatterPoints (g : ℕ → ℚ) (width height : ℚ) (numCells : ℕ) :
    List ℚ :=
  (List.range numCells).flatMap fun i => [g (i * 2) * width, g (i * 2 + 1) * height]

/-- The initial height field: simplex noise shaped by a radial island mask,
`max(0, noise*0.5+0.5 - dist*1.5)`. -/
def MapGenerator.initialHeights (sqrtQ : ℚ → ℚ) (noise : ℚ → ℚ → ℚ)
    (points : List ℚ) (width height : ℚ) (numCells : ℕ) : List ℚ :=
  (List.range numCells).map fun i =>
    let x := points.getD (i * 2) 0
    let y := points.getD (i * 2 + 1) 0
    let nx := x / width - 1 / 2
    let ny := y / height - 1 / 2
    let dist := sqrtQ (nx * nx + ny * ny)
    let baseHeight := noise (x / 500) (y / 500) * (1 / 2) + 1 / 2
    max 0 (baseHeight - dist * (3 / 2))

/-- `MapGenerator.generate` (`CityGenerator.ts` related doc, lines 118–196):
the full seeded pipeline — scatter points, build the mesh, height field,
biomes, rivers, states, cities, roads. -/
def MapGenerator.generate (ext : MapExt) (width height : ℚ) (seed : ℤ)
    (numCells : ℕ) : WorldMap :=
  let g := ext.alea seed
  let points := MapGenerator.scatterPoints g width height numCells
  let noiseRes := ext.mkNoise g (numCells * 2)
  let heights := MapGenerator.initialHeights ext.sqrtQ noiseRes.1 points width
    height numCells
  let moistureNoise := (ext.mkNoise (ext.alea (seed + 1)) 0).1
  let map0 : WorldMap :=
    { seed := seed
      width := width
      height := height
      points := points
      cells :=
        { heights := heights
          biomes := List.replicate numCells 0
          states := List.replicate numCells 0
          cultures := List.replicate numCells 0
          pop := List.replicate numCells 0 }
      rivers := []
      roads := []
      cities := []
      castles := []
      markers := []
      labels := []
      states := []
      nextId := { city := 1, state := 1, castle := 1, marker := 1 } }
  let map1 := { map0 with
    cells := { map0.cells with
      biomes := TerrainGenerator.generateBiomes moistureNoise points heights } }
  let rivers := RiverGenerator.generate ext map1 seed 30
  let map2 := { map1 with rivers := rivers }
  let stateRes := StateGenerator.generate ext map2 5 seed
  let map3 := { map2 with
    states := stateRes.1
    cells := { map2.cells with states := stateRes.2 }
    nextId := { map2.nextId with state := stateRes.1.length + 1 } }
  let cityRes := CityGenerator.generate ext map3 seed
  let map4 := { map3 with
    cities := cityRes.1
    states := cityRes.2
    nextId := { map3.nextId with city := cityRes.1.length + 1 } }
  let roads := RoadGenerator.generate ext map4 cityRes.1
  { map4 with roads := roads }

/-! ## Theorems -/

/-- A trivial instantiation of the external oracles, used by witnesses. -/
def extTriv : MapExt where
  alea := fun _ _ => 0
  mkNoise := fun _ r => (fun _ _ => 0, r)
  delaunayNeighbors := fun _ _ => []
  voronoiNeighbors := fun _ _ => []
  jsSortRandom := fun _ r l => (l, r)
  sqrtQ := fun _ => 0

/-- C1: two calls of `generate(w, h, seed, n)` with identical arguments (and
the same deterministic external collaborators) produce equal worlds: the
same points buffer, the same heights/biomes/states/cultures/pop cell arrays,
the same city, castle, marker, state, river and road collections, and the
same `nextId` counters. -/
theorem MapGenerator.generate_deterministic (ext : MapExt) (width height : ℚ)
    (seed : ℤ) (numCells : ℕ) (w1 w2 : WorldMap)
    (h1 : w1 = MapGenerator.generate ext width height seed numCells)
    (h2 : w2 = MapGenerator.generate ext width height seed numCells) :
    w1.points = w2.points ∧
    w1.cells.heights = w2.cells.heights ∧
    w1.cells.biomes = w2.cells.biomes ∧
    w1.cells.states = w2.cells.states ∧
    w1.cells.cultures = w2.cells.cultures ∧
    w1.cells.pop = w2.cells.pop ∧
    w1.cities = w2.cities ∧
    w1.castles = w2.castles ∧
    w1.markers = w2.markers ∧
    w1.states = w2.states ∧
    w1.rivers = w2.rivers ∧
    w1.roads = w2.roads ∧
    w1.nextId = w2.nextId := by
  subst h1; subst h2
  exact ⟨rfl, rfl, rfl, rfl, rfl, rfl, rfl, rfl, rfl, rfl, rfl, rfl, rfl⟩

/-- Witness for C1 at a concrete argument tuple. -/
theorem MapGenerator.generate_deterministic_witness :
    (MapGenerator.generate extTriv 10 10 7 3).points =
      (MapGenerator.generate extTriv 10 10 7 3).points ∧
    (MapGenerator.generate extTriv 10 10 7 3).cells.heights =
      (MapGenerator.generate extTriv 10 10 7 3).cells.heights ∧
    (MapGenerator.generate extTriv 10 10 7 3).cells.biomes =
      (MapGenerator.generate extTriv 10 10 7 3).cells.biomes ∧
    (MapGenerator.generate extTriv 10 10 7 3).cells.states =
      (MapGenerator.generate extTriv 10 10 7 3).cells.states ∧
    (MapGenerator.generate extTriv 10 10 7 3).cells.cultures =
      (MapGenerator.generate extTriv 10 10 7 3).cells.cultures ∧
    (MapGenerator.generate extTriv 10 10 7 3).cells.pop =
      (MapGenerator.generate extTriv 10 10 7 3).cells.pop ∧
    (MapGenerator.generate extTriv 10 10 7 3).cities =
      (MapGenerator.generate extTriv 10 10 7 3).cities ∧
    (MapGenerator.generate extTriv 10 10 7 3).castles =
      (MapGenerator.generate extTriv 10 10 7 3).castles ∧
    (MapGenerator.generate extTriv 10 10 7 3).markers =
      (MapGenerator.generate extTriv 10 10 7 3).markers ∧
    (MapGenerator.generate extTriv 10 10 7 3).states =
      (MapGenerator.generate extTriv 10 10 7 3).states ∧
    (MapGenerator.generate extTriv 10 10 7 3).rivers =
      (MapGenerator.generate extTriv 10 10 7 3).rivers ∧
    (MapGenerator.generate extTriv 10 10 7 3).roads =
      (MapGenerator.generate extTriv 10 10 7 3).roads ∧
    (MapGenerator.generate extTriv 10 10 7 3).nextId =
      (MapGenerator.generate extTriv 10 10 7 3).nextId :=
  MapGenerator.generate_deterministic extTriv 10 10 7 3 _ _ rfl rfl

/-- C2: deserialising the serialised form of a world (`load` applied to the
payload written by `save`) succeeds without a failure report and yields a
world equal to the original on seed, width, height, the points buffer, every
cell field array, every entity collection, and the `nextId` block
(`labels`, not listed by the spec, is the one field reset by `load`). -/
theorem MapPersistence.load_save_roundtrip (m : WorldMap) :
    MapPersistence.load (some (.ok (MapPersistence.save m))) =
      (some (MapPersistence.reconstruct (MapPersistence.save m)), false) ∧
    (MapPersistence.reconstruct (MapPersistence.save m)).seed = m.seed ∧
    (MapPersistence.reconstruct (MapPersistence.save m)).width = m.width ∧
    (MapPersistence.reconstruct (MapPersistence.save m)).height = m.height ∧
    (MapPersistence.reconstruct (MapPersistence.save m)).points = m.points ∧
    (MapPersistence.reconstruct (MapPersistence.save m)).cells.heights =
      m.cells.heights ∧
    (MapPersistence.reconstruct (MapPersistence.save m)).cells.biomes =
      m.cells.biomes ∧
    (MapPersistence.reconstruct (MapPersistence.save m)).cells.states =
      m.cells.states ∧
    (MapPersistence.reconstruct (MapPersistence.save m)).cells.cultures =
      m.cells.cultures ∧
    (MapPersistence.reconstruct (MapPersistence.save m)).cells.pop =
      m.cells.pop ∧
    (MapPersistence.reconstruct (MapPersistence.save m)).cities = m.cities ∧
    (MapPersistence.reconstruct (MapPersistence.save m)).castles = m.castles ∧
    (MapPersistence.reconstruct (MapPersistence.save m)).markers = m.markers ∧
    (MapPersistence.reconstruct (MapPersistence.save m)).states = m.states ∧
    (MapPersistence.reconstruct (MapPersistence.save m)).rivers = m.rivers ∧
    (MapPersistence.reconstruct (MapPersistence.save m)).roads = m.roads ∧
    (MapPersistence.reconstruct (MapPersistence.save m)).nextId = m.nextId :=
  ⟨rfl, rfl, rfl, rfl, rfl, rfl, rfl, rfl, rfl, rfl, rfl, rfl, rfl, rfl, rfl,
   rfl, rfl⟩

/-- C10: persistence load distinguishes its two non-success outcomes —
nothing stored returns the silent none result, while a stored but malformed
payload returns none with a reported load failure, an outcome distinct from
the nothing-stored one. -/
theorem MapPersistence.load_distinguishes_failures :
    MapPersistence.load none = (none, false) ∧
    MapPersistence.load (some .corrupt) = (none, true) ∧
    MapPersistence.load none ≠ MapPersistence.load (some .corrupt) := by
  refine ⟨rfl, rfl, ?_⟩
  intro h
  simpa [MapPersistence.load] using congrArg Prod.snd h

/-- C7 (amended): the traversal cost from cell A to an adjacent cell B is
infinite (B impassable) exactly when B's height is strictly below `0.20`;
otherwise it equals the Euclidean distance between A's and B's centers
(pinned through the `Math.sqrt` oracle by the hypotheses on `d`) multiplied
by the biome penalty of B's biome, plus `500 × |height(B) − height(A)|`,
with penalties grassland 1.0, beach 1.2, desert 1.2, forest 1.2,
dense-forest 1.5, swamp 3.0, mountain 4.0, snow 5.0. -/
theorem RoadGenerator.movementCost_spec (sqrtQ : ℚ → ℚ)
    (points heights : List ℚ) (biomes : List ℕ) (fromId toId : ℕ) (d : ℚ)
    (hd0 : 0 ≤ d)
    (hdd : d * d =
      (points.getD (toId * 2) 0 - points.getD (fromId * 2) 0) ^ 2 +
        (points.getD (toId * 2 + 1) 0 - points.getD (fromId * 2 + 1) 0) ^ 2)
    (hsq : sqrtQ
      ((points.getD (toId * 2) 0 - points.getD (fromId * 2) 0) ^ 2 +
        (points.getD (toId * 2 + 1) 0 - points.getD (fromId * 2 + 1) 0) ^ 2) = d) :
    (RoadGenerator.getMovementCost sqrtQ points heights biomes fromId toId = none ↔
      heights.getD toId 0 < 1 / 5) ∧
    (¬ heights.getD toId 0 < 1 / 5 →
      RoadGenerator.getMovementCost sqrtQ points heights biomes fromId toId =
        some (d * RoadGenerator.biomePenalty (biomes.getD toId 0) +
          500 * |heights.getD toId 0 - heights.getD fromId 0|)) ∧
    RoadGenerator.biomePenalty BiomeType.GRASSLAND = 1 ∧
    RoadGenerator.biomePenalty BiomeType.BEACH = 6 / 5 ∧
    RoadGenerator.biomePenalty BiomeType.DESERT = 6 / 5 ∧
    RoadGenerator.biomePenalty BiomeType.FOREST = 6 / 5 ∧
    RoadGenerator.biomePenalty BiomeType.DENSE_FOREST = 3 / 2 ∧
    RoadGenerator.biomePenalty BiomeType.SWAMP = 3 ∧
    RoadGenerator.biomePenalty BiomeType.MOUNTAIN = 4 ∧
    RoadGenerator.biomePenalty BiomeType.SNOW = 5 := by
  have hpen : RoadGenerator.biomePenalty BiomeType.GRASSLAND = 1 ∧
      RoadGenerator.biomePenalty BiomeType.BEACH = 6 / 5 ∧
      RoadGenerator.biomePenalty BiomeType.DESERT = 6 / 5 ∧
      RoadGenerator.biomePenalty BiomeType.FOREST = 6 / 5 ∧
      RoadGenerator.biomePenalty BiomeType.DENSE_FOREST = 3 / 2 ∧
      RoadGenerator.biomePenalty BiomeType.SWAMP = 3 ∧
      RoadGenerator.biomePenalty BiomeType.MOUNTAIN = 4 ∧
      RoadGenerator.biomePenalty BiomeType.SNOW = 5 := by
    norm_num [RoadGenerator.biomePenalty, BiomeType.GRASSLAND, BiomeType.BEACH,
      BiomeType.DESERT, BiomeType.FOREST, BiomeType.DENSE_FOREST,
      BiomeType.SWAMP, BiomeType.MOUNTAIN, BiomeType.SNOW]
  refine ⟨?_, ?_, hpen.1, hpen.2.1, hpen.2.2.1, hpen.2.2.2.1, hpen.2.2.2.2.1,
    hpen.2.2.2.2.2.1, hpen.2.2.2.2.2.2.1, hpen.2.2.2.2.2.2.2⟩
  · by_cases hto : heights.getD toId 0 < 1 / 5 <;>
      simp [RoadGenerator.getMovementCost, hto]
  · intro hto
    simp only [RoadGenerator.getMovementCost, RoadGenerator.dist, hto, if_false]
    rw [hsq, mul_comm 500]

/-- Witness for C7 at a concrete cost query: cells at `(0,0)` and `(3,4)`
(distance 5), destination height `1/2` on grassland. -/
theorem RoadGenerator.movementCost_spec_witness :
    (0 : ℚ) ≤ 5 ∧
    ((5 : ℚ) * 5 =
      (([0, 0, 3, 4] : List ℚ).getD (1 * 2) 0 - ([0, 0, 3, 4] : List ℚ).getD (0 * 2) 0) ^ 2 +
        (([0, 0, 3, 4] : List ℚ).getD (1 * 2 + 1) 0 -
          ([0, 0, 3, 4] : List ℚ).getD (0 * 2 + 1) 0) ^ 2) ∧
    ((fun v : ℚ => if v = 25 then (5 : ℚ) else 0)
      ((([0, 0, 3, 4] : List ℚ).getD (1 * 2) 0 - ([0, 0, 3, 4] : List ℚ).getD (0 * 2) 0) ^ 2 +
        (([0, 0, 3, 4] : List ℚ).getD (1 * 2 + 1) 0 -
          ([0, 0, 3, 4] : List ℚ).getD (0 * 2 + 1) 0) ^ 2) = 5) ∧
    ((RoadGenerator.getMovementCost (fun v : ℚ => if v = 25 then (5 : ℚ) else 0)
        [0, 0, 3, 4] [1/2, 1/2] [2, 2] 0 1 = none ↔
      ([1/2, 1/2] : List ℚ).getD 1 0 < 1 / 5) ∧
    (¬ ([1/2, 1/2] : List ℚ).getD 1 0 < 1 / 5 →
      RoadGenerator.getMovementCost (fun v : ℚ => if v = 25 then (5 : ℚ) else 0)
          [0, 0, 3, 4] [1/2, 1/2] [2, 2] 0 1 =
        some (5 * RoadGenerator.biomePenalty (([2, 2] : List ℕ).getD 1 0) +
          500 * |([1/2, 1/2] : List ℚ).getD 1 0 - ([1/2, 1/2] : List ℚ).getD 0 0|)) ∧
    RoadGenerator.biomePenalty BiomeType.GRASSLAND = 1 ∧
    RoadGenerator.biomePenalty BiomeType.BEACH = 6 / 5 ∧
    RoadGenerator.biomePenalty BiomeType.DESERT = 6 / 5 ∧
    RoadGenerator.biomePenalty BiomeType.FOREST = 6 / 5 ∧
    RoadGenerator.biomePenalty BiomeType.DENSE_FOREST = 3 / 2 ∧
    RoadGenerator.biomePenalty BiomeType.SWAMP = 3 ∧
    RoadGenerator.biomePenalty BiomeType.MOUNTAIN = 4 ∧
    RoadGenerator.biomePenalty BiomeType.SNOW = 5) :=
  ⟨by norm_num, by norm_num [List.getD], by norm_num [List.getD],
   RoadGenerator.movementCost_spec (fun v : ℚ => if v = 25 then (5 : ℚ) else 0)
     [0, 0, 3, 4] [1/2, 1/2] [2, 2] 0 1 5 (by norm_num)
     (by norm_num [List.getD]) (by norm_num [List.getD])⟩

/-- Counterexample for C7 as stated: at destination height exactly `0.20`
the claim demands an infinite cost, but the code's strict `< 0.2` test
yields a finite one. -/
theorem RoadGenerator.movementCost_boundary_cex :
    ([1/5, 1/5] : List ℚ).getD 1 0 ≤ 1 / 5 ∧
    RoadGenerator.getMovementCost (fun _ => 0) [0, 0, 3, 4] [1/5, 1/5] [2, 2]
      0 1 ≠ none := by
  constructor
  · norm_num [List.getD]
  · simp [RoadGenerator.getMovementCost, List.getD]

/-- C9 (amended): for a pointer-down of the city placer on a located cell:
if the cell's height is strictly below `0.20` (ocean) or some existing city
already occupies it, the operation leaves the world completely unchanged;
otherwise exactly one new city is appended at the cell, its id is the
current `nextId.city`, and `nextId.city` is incremented by one, with every
other part of the world untouched. -/
theorem CityPlacerTool.onMouseDown_spec (rnd : ℕ → ℚ) (m : WorldMap)
    (e : ToolEvent) (hc : e.cellId ≠ -1) :
    (m.cells.heights.getD e.cellId.toNat 0 < 1 / 5 →
      CityPlacerTool.onMouseDown rnd m e = m) ∧
    ((m.cities.any fun c => c.cellId = e.cellId.toNat) = true →
      CityPlacerTool.onMouseDown rnd m e = m) ∧
    (¬ m.cells.heights.getD e.cellId.toNat 0 < 1 / 5 →
      (m.cities.any fun c => c.cellId = e.cellId.toNat) = false →
      ∃ c : City,
        (CityPlacerTool.onMouseDown rnd m e).cities = m.cities ++ [c] ∧
        c.cellId = e.cellId.toNat ∧
        c.id = m.nextId.city ∧
        (CityPlacerTool.onMouseDown rnd m e).nextId.city = m.nextId.city + 1 ∧
        (CityPlacerTool.onMouseDown rnd m e).cells = m.cells ∧
        (CityPlacerTool.onMouseDown rnd m e).points = m.points ∧
        (CityPlacerTool.onMouseDown rnd m e).castles = m.castles ∧
        (CityPlacerTool.onMouseDown rnd m e).markers = m.markers ∧
        (CityPlacerTool.onMouseDown rnd m e).states = m.states ∧
        (CityPlacerTool.onMouseDown rnd m e).rivers = m.rivers ∧
        (CityPlacerTool.onMouseDown rnd m e).roads = m.roads ∧
        (CityPlacerTool.onMouseDown rnd m e).nextId.state = m.nextId.state ∧
        (CityPlacerTool.onMouseDown rnd m e).nextId.castle = m.nextId.castle ∧
        (CityPlacerTool.onMouseDown rnd m e).nextId.marker = m.nextId.marker) := by
  refine ⟨?_, ?_, ?_⟩
  · intro hlow
    simp only [CityPlacerTool.onMouseDown]
    rw [if_neg hc, if_pos hlow]
  · intro hocc
    by_cases hlow : m.cells.heights.getD e.cellId.toNat 0 < 1 / 5
    · simp only [CityPlacerTool.onMouseDown]
      rw [if_neg hc, if_pos hlow]
    · simp only [CityPlacerTool.onMouseDown]
      rw [if_neg hc, if_neg hlow, if_pos hocc]
  · intro hlow hocc
    have hocc2 : ¬ ((m.cities.any fun c => c.cellId = e.cellId.toNat) = true) := by
      simp [hocc]
    simp only [CityPlacerTool.onMouseDown]
    rw [if_neg hc, if_neg hlow, if_neg hocc2]
    exact ⟨_, rfl, rfl, rfl, rfl, rfl, rfl, rfl, rfl, rfl, rfl, rfl, rfl, rfl,
      rfl⟩

/-- Witness for C9 at a concrete world: one land cell (height `1/2`) with
no occupying city. -/
theorem CityPlacerTool.onMouseDown_spec_witness :
    ((⟨0, 0, 0⟩ : ToolEvent).cellId ≠ -1) ∧
    (let m : WorldMap :=
      { seed := 0, width := 10, height := 10, points := [1, 1],
        cells := { heights := [1/2], biomes := [2], states := [0],
                   cultures := [0], pop := [0] },
        rivers := [], roads := [], cities := [], castles := [], markers := [],
        labels := [], states := [],
        nextId := { city := 1, state := 1, castle := 1, marker := 1 } }
     (m.cells.heights.getD (0 : ℤ).toNat 0 < 1 / 5 →
        CityPlacerTool.onMouseDown (fun _ => 0) m ⟨0, 0, 0⟩ = m) ∧
     ((m.cities.any fun c => c.cellId = (0 : ℤ).toNat) = true →
        CityPlacerTool.onMouseDown (fun _ => 0) m ⟨0, 0, 0⟩ = m) ∧
     (¬ m.cells.heights.getD (0 : ℤ).toNat 0 < 1 / 5 →
        (m.cities.any fun c => c.cellId = (0 : ℤ).toNat) = false →
        ∃ c : City,
          (CityPlacerTool.onMouseDown (fun _ => 0) m ⟨0, 0, 0⟩).cities =
            m.cities ++ [c] ∧
          c.cellId = (0 : ℤ).toNat ∧
          c.id = m.nextId.city ∧
          (CityPlacerTool.onMouseDown (fun _ => 0) m ⟨0, 0, 0⟩).nextId.city =
            m.nextId.city + 1 ∧
          (CityPlacerTool.onMouseDown (fun _ => 0) m ⟨0, 0, 0⟩).cells = m.cells ∧
          (CityPlacerTool.onMouseDown (fun _ => 0) m ⟨0, 0, 0⟩).points = m.points ∧
          (CityPlacerTool.onMouseDown (fun _ => 0) m ⟨0, 0, 0⟩).castles = m.castles ∧
          (CityPlacerTool.onMouseDown (fun _ => 0) m ⟨0, 0, 0⟩).markers = m.markers ∧
          (CityPlacerTool.onMouseDown (fun _ => 0) m ⟨0, 0, 0⟩).states = m.states ∧
          (CityPlacerTool.onMouseDown (fun _ => 0) m ⟨0, 0, 0⟩).rivers = m.rivers ∧
          (CityPlacerTool.onMouseDown (fun _ => 0) m ⟨0, 0, 0⟩).roads = m.roads ∧
          (CityPlacerTool.onMouseDown (fun _ => 0) m ⟨0, 0, 0⟩).nextId.state =
            m.nextId.state ∧
          (CityPlacerTool.onMouseDown (fun _ => 0) m ⟨0, 0, 0⟩).nextId.castle =
            m.nextId.castle ∧
          (CityPlacerTool.onMouseDown (fun _ => 0) m ⟨0, 0, 0⟩).nextId.marker =
            m.nextId.marker)) :=
  ⟨by decide,
   CityPlacerTool.onMouseDown_spec (fun _ => 0)
     { seed := 0, width := 10, height := 10, points := [1, 1],
       cells := { heights := [1/2], biomes := [2], states := [0],
                  cultures := [0], pop := [0] },
       rivers := [], roads := [], cities := [], castles := [], markers := [],
       labels := [], states := [],
       nextId := { city := 1, state := 1, castle := 1, marker := 1 } }
     ⟨0, 0, 0⟩ (by decide)⟩

/-- Counterexample for C9 as stated: at cell height exactly `0.20` the claim
demands a no-op, but the code's strict `< 0.2` test places a city. -/
theorem CityPlacerTool.boundary_cex :
    (let m : WorldMap :=
      { seed := 0, width := 10, height := 10, points := [1, 1],
        cells := { heights := [1/5], biomes := [2], states := [0],
                   cultures := [0], pop := [0] },
        rivers := [], roads := [], cities := [], castles := [], markers := [],
        labels := [], states := [],
        nextId := { city := 1, state := 1, castle := 1, marker := 1 } }
     ((⟨0, 0, 0⟩ : ToolEvent).cellId ≠ -1) ∧
     m.cells.heights.getD (0 : ℤ).toNat 0 ≤ 1 / 5 ∧
     (m.cities.any fun c => c.cellId = (0 : ℤ).toNat) = false ∧
     CityPlacerTool.onMouseDown (fun _ => 0) m ⟨0, 0, 0⟩ ≠ m) := by
  refine ⟨by decide, by norm_num [List.getD], by decide, ?_⟩
  intro h
  have := congrArg (fun w : WorldMap => w.cities.length) h
  simp only [CityPlacerTool.onMouseDown] at this
  norm_num [List.getD] at this

/-- C8: deleting a state removes exactly the states with its id from the
state list, zeroes `stateId` on exactly those cells whose `stateId` equalled
it (all other cells unchanged, including out-of-range reads), removes
exactly those cities whose name contains `"(Capital of {S.name})"`, and
leaves all castles, markers and the remaining world untouched. -/
theorem deleteElement_state_spec (m : WorldMap) (sid : ℕ) (sname : String) :
    (∀ i : ℕ, (deleteElement m (.state sid sname)).cells.states.getD i 0 =
      if m.cells.states.getD i 0 = sid then 0 else m.cells.states.getD i 0) ∧
    (∀ c : City, c ∈ (deleteElement m (.state sid sname)).cities ↔
      c ∈ m.cities ∧ strIncludes c.name (capitalMarker sname) = false) ∧
    (∀ s : State, s ∈ (deleteElement m (.state sid sname)).states ↔
      s ∈ m.states ∧ s.id ≠ sid) ∧
    (deleteElement m (.state sid sname)).castles = m.castles ∧
    (deleteElement m (.state sid sname)).markers = m.markers ∧
    (deleteElement m (.state sid sname)).cells.heights = m.cells.heights ∧
    (deleteElement m (.state sid sname)).cells.biomes = m.cells.biomes ∧
    (deleteElement m (.state sid sname)).cells.cultures = m.cells.cultures ∧
    (deleteElement m (.state sid sname)).cells.pop = m.cells.pop ∧
    (deleteElement m (.state sid sname)).points = m.points ∧
    (deleteElement m (.state sid sname)).rivers = m.rivers ∧
    (deleteElement m (.state sid sname)).roads = m.roads ∧
    (deleteElement m (.state sid sname)).nextId = m.nextId := by
  refine ⟨?_, ?_, ?_, rfl, rfl, rfl, rfl, rfl, rfl, rfl, rfl, rfl, rfl⟩
  · intro i
    simp only [deleteElement]
    by_cases hi : i < m.cells.states.length
    · rw [List.getD_eq_getElem _ _ (by simpa using hi),
        List.getD_eq_getElem _ _ hi, List.getElem_map]
    · rw [List.getD_eq_default _ _ (by simpa using Nat.le_of_not_lt hi),
        List.getD_eq_default _ _ (Nat.le_of_not_lt hi)]
      exact (ite_self 0).symm
  · intro c
    simp [deleteElement, List.mem_filter]
  · intro s
    simp [deleteElement, List.mem_filter]

/-- The squared distance from cell `i`'s center to the brush center, as
computed inside `HeightPaintTool.paint`. -/
def brushDistSq (points : List ℚ) (cx cy : ℚ) (i : ℕ) : ℚ :=
  let dx := points.getD (i * 2) 0 - cx
  let dy := points.getD (i * 2 + 1) 0 - cy
  dx * dx + dy * dy

theorem HeightPaintTool.paintStep_eq (sqrtQ : ℚ → ℚ) (points : List ℚ)
    (cx cy radius intensity : ℚ) (acc : List ℚ × List ℕ) (i : ℕ) :
    HeightPaintTool.paintStep sqrtQ points cx cy radius intensity acc i =
      if brushDistSq points cx cy i ≤ radius * radius then
        (acc.1.set i (clamp01 (acc.1.getD i 0 +
           intensity * (1 - sqrtQ (brushDistSq points cx cy i) / radius))),
         acc.2 ++ [i])
      else acc := rfl

theorem listGetD_set_self {α : Type} {l : List α} {i : ℕ} (h : i < l.length)
    (v d : α) : (l.set i v).getD i d = v := by
  rw [List.getD_eq_getElem _ _ (by simpa using h)]
  simp

theorem listGetD_set_ne {α : Type} {l : List α} {i j : ℕ} (h : i ≠ j)
    (v : α) (d : α) : (l.set i v).getD j d = l.getD j d := by
  by_cases hj : j < l.length
  · rw [List.getD_eq_getElem _ _ (by simpa using hj),
      List.getD_eq_getElem _ _ hj, List.getElem_set_ne h]
  · rw [List.getD_eq_default _ _ (by simpa using Nat.le_of_not_lt hj),
      List.getD_eq_default _ _ (Nat.le_of_not_lt hj)]

/-- Characterisation of the height-update scan of `HeightPaintTool.paint`
over the first `n` cell indices: lengths are preserved, unscanned indices
are untouched, scanned indices inside the brush radius get the clamped
falloff update, and the affected list is exactly the in-radius indices in
ascending order. -/
theorem HeightPaintTool.scan_spec (sqrtQ : ℚ → ℚ) (points : List ℚ)
    (cx cy radius intensity : ℚ) (heights : List ℚ) (n : ℕ)
    (hn : n ≤ heights.length) :
    ((List.range n).foldl
        (HeightPaintTool.paintStep sqrtQ points cx cy radius intensity)
        (heights, [])).1.length = heights.length ∧
    (∀ j, n ≤ j →
      ((List.range n).foldl
          (HeightPaintTool.paintStep sqrtQ points cx cy radius intensity)
          (heights, [])).1.getD j 0 = heights.getD j 0) ∧
    (∀ j, j < n →
      ((List.range n).foldl
          (HeightPaintTool.paintStep sqrtQ points cx cy radius intensity)
          (heights, [])).1.getD j 0 =
        if brushDistSq points cx cy j ≤ radius * radius then
          clamp01 (heights.getD j 0 +
            intensity * (1 - sqrtQ (brushDistSq points cx cy j) / radius))
        else heights.getD j 0) ∧
    ((List.range n).foldl
        (HeightPaintTool.paintStep sqrtQ points cx cy radius intensity)
        (heights, [])).2 =
      (List.range n).filter
        (fun j => brushDistSq points cx cy j ≤ radius * radius) := by
  induction n with
  | zero => exact ⟨rfl, fun j _ => rfl, fun j hj => absurd hj (Nat.not_lt_zero j), rfl⟩
  | succ n ih =>
      obtain ⟨ihlen, ihhigh, ihlow, ihaff⟩ := ih (Nat.le_of_succ_le hn)
      have hnlt : n < heights.length := Nat.lt_of_succ_le hn
      rw [List.range_succ, List.foldl_append, List.foldl_cons, List.foldl_nil,
        List.filter_append] at *
      rw [HeightPaintTool.paintStep_eq]
      by_cases hcond : brushDistSq points cx cy n ≤ radius * radius
      · rw [if_pos hcond]
        have hsetlen : (((List.range n).foldl
            (HeightPaintTool.paintStep sqrtQ points cx cy radius intensity)
            (heights, [])).1.set n (clamp01
              (((List.range n).foldl
                (HeightPaintTool.paintStep sqrtQ points cx cy radius intensity)
                (heights, [])).1.getD n 0 +
                intensity * (1 - sqrtQ (brushDistSq points cx cy n) / radius)))).length =
            heights.length := by
          rw [List.length_set, ihlen]
        refine ⟨hsetlen, ?_, ?_, ?_⟩
        · intro j hj
          have hne : n ≠ j := by omega
          rw [listGetD_set_ne hne, ihhigh j (by omega)]
        · intro j hj
          rcases Nat.lt_or_ge j n with hjn | hjn
          · have hne : n ≠ j := by omega
            rw [listGetD_set_ne hne, ihlow j hjn]
          · have hjeq : j = n := by omega
            subst hjeq
            rw [listGetD_set_self (by rw [ihlen]; exact hnlt), ihhigh j le_rfl,
              if_pos hcond]
        · simp [ihaff, hcond]
      · rw [if_neg hcond]
        refine ⟨ihlen, ?_, ?_, ?_⟩
        · intro j hj
          exact ihhigh j (by omega)
        · intro j hj
          rcases Nat.lt_or_ge j n with hjn | hjn
          · exact ihlow j hjn
          · have hjeq : j = n := by omega
            subst hjeq
            rw [ihhigh j le_rfl, if_neg hcond]
        · simp [ihaff, hcond]

/-- Characterisation of the biome-recompute pass: folding `set i (f i)` over
an index list writes `f j` at exactly the in-range listed indices. -/
theorem biomePass_spec (f : ℕ → ℕ) (j : ℕ) :
    ∀ (l : List ℕ) (bs : List ℕ),
      (l.foldl (fun acc i => acc.set i (f i)) bs).getD j 0 =
        if j ∈ l ∧ j < bs.length then f j else bs.getD j 0 := by
  intro l
  induction l with
  | nil => intro bs; simp
  | cons i l ih =>
      intro bs
      rw [List.foldl_cons, ih]
      by_cases hj : j < bs.length
      · by_cases hmem : j ∈ l
        · rw [if_pos ⟨hmem, by simpa using hj⟩, if_pos ⟨List.mem_cons_of_mem i hmem, hj⟩]
        · rw [if_neg (by simp [hmem])]
          by_cases hij : i = j
          · subst hij
            rw [listGetD_set_self hj, if_pos ⟨List.mem_cons_self i l, hj⟩]
          · have hnotin : ¬ (j ∈ i :: l ∧ j < bs.length) := by
              simp only [List.mem_cons, not_and]
              rintro (h1 | h2)
              · exact absurd h1.symm hij
              · exact absurd h2 hmem
            rw [listGetD_set_ne hij, if_neg hnotin]
      · rw [if_neg (by simp [hj]), if_neg (by simp [hj])]
        by_cases hij : i = j
        · subst hij
          rw [List.getD_eq_default _ _ (by simpa using Nat.le_of_not_lt hj),
            List.getD_eq_default _ _ (Nat.le_of_not_lt hj)]
        · rw [listGetD_set_ne hij]

/-- C3: after a single height-paint stroke sample of radius `R > 0` and
intensity `I` centered on a located cell `c`, every cell whose center lies
at Euclidean distance `d ≤ R` from `c`'s center (the distance pinned through
the `Math.sqrt` oracle by the hypotheses on `d`) has its height changed to
`clamp[0,1](old + I × (1 − d/R))` and its biome recomputed from its new
height and its moisture sample, and every cell at distance `d > R` keeps its
height and biome unchanged. -/
theorem HeightPaintTool.paint_spec (ext : MapExt) (m : WorldMap)
    (radius intensity : ℚ) (ex ey : ℚ) (c i : ℕ) (d : ℚ)
    (hrad : 0 < radius)
    (hi : i < m.cells.heights.length)
    (hbl : m.cells.biomes.length = m.cells.heights.length)
    (hd0 : 0 ≤ d)
    (hdd : d * d = brushDistSq m.points (m.points.getD (c * 2) 0)
      (m.points.getD (c * 2 + 1) 0) i)
    (hsq : ext.sqrtQ (brushDistSq m.points (m.points.getD (c * 2) 0)
      (m.points.getD (c * 2 + 1) 0) i) = d) :
    (d ≤ radius →
      (HeightPaintTool.paint ext m radius intensity
          ⟨ex, ey, (c : ℤ)⟩).cells.heights.getD i 0 =
        clamp01 (m.cells.heights.getD i 0 + intensity * (1 - d / radius)) ∧
      (HeightPaintTool.paint ext m radius intensity
          ⟨ex, ey, (c : ℤ)⟩).cells.biomes.getD i 0 =
        TerrainGenerator.updateCellBiome
          ((ext.mkNoise (ext.alea (m.seed + 1)) 0).1)
          (m.points.getD (i * 2) 0) (m.points.getD (i * 2 + 1) 0)
          ((HeightPaintTool.paint ext m radius intensity
            ⟨ex, ey, (c : ℤ)⟩).cells.heights.getD i 0)) ∧
    (radius < d →
      (HeightPaintTool.paint ext m radius intensity
          ⟨ex, ey, (c : ℤ)⟩).cells.heights.getD i 0 =
        m.cells.heights.getD i 0 ∧
      (HeightPaintTool.paint ext m radius intensity
          ⟨ex, ey, (c : ℤ)⟩).cells.biomes.getD i 0 =
        m.cells.biomes.getD i 0) := by
  have hc : ((c : ℤ)) ≠ -1 := by omega
  have hpH : (HeightPaintTool.paint ext m radius intensity
      ⟨ex, ey, (c : ℤ)⟩).cells.heights =
      ((List.range m.cells.heights.length).foldl
        (HeightPaintTool.paintStep ext.sqrtQ m.points
          (m.points.getD (c * 2) 0) (m.points.getD (c * 2 + 1) 0)
          radius intensity) (m.cells.heights, [])).1 := by
    simp only [HeightPaintTool.paint, Int.toNat_natCast]
    rw [if_neg hc]
  have hpB : (HeightPaintTool.paint ext m radius intensity
      ⟨ex, ey, (c : ℤ)⟩).cells.biomes =
      ((List.range m.cells.heights.length).foldl
        (HeightPaintTool.paintStep ext.sqrtQ m.points
          (m.points.getD (c * 2) 0) (m.points.getD (c * 2 + 1) 0)
          radius intensity) (m.cells.heights, [])).2.foldl
        (fun bs j => bs.set j (TerrainGenerator.updateCellBiome
          ((ext.mkNoise (ext.alea (m.seed + 1)) 0).1)
          (m.points.getD (j * 2) 0) (m.points.getD (j * 2 + 1) 0)
          (((List.range m.cells.heights.length).foldl
        (HeightPaintTool.paintStep ext.sqrtQ m.points
          (m.points.getD (c * 2) 0) (m.points.getD (c * 2 + 1) 0)
          radius intensity) (m.cells.heights, [])).1.getD j 0)))
        m.cells.biomes := by
    simp only [HeightPaintTool.paint, Int.toNat_natCast]
    rw [if_neg hc]
  obtain ⟨slen, shigh, slow, saff⟩ := HeightPaintTool.scan_spec ext.sqrtQ
    m.points (m.points.getD (c * 2) 0) (m.points.getD (c * 2 + 1) 0)
    radius intensity m.cells.heights m.cells.heights.length le_rfl
  have hiff : d ≤ radius ↔ brushDistSq m.points (m.points.getD (c * 2) 0)
      (m.points.getD (c * 2 + 1) 0) i ≤ radius * radius := by
    constructor
    · intro h
      rw [← hdd]
      exact mul_self_le_mul_self hd0 h
    · intro h
      by_contra hlt
      push_neg at hlt
      exact absurd (hdd ▸ h) (not_le.mpr (mul_self_lt_mul_self hrad.le hlt))
  constructor
  · intro hdr
    have hcond := hiff.mp hdr
    have hh : (HeightPaintTool.paint ext m radius intensity
        ⟨ex, ey, (c : ℤ)⟩).cells.heights.getD i 0 =
        clamp01 (m.cells.heights.getD i 0 + intensity * (1 - d / radius)) := by
      rw [hpH, slow i hi, if_pos hcond, hsq]
    refine ⟨hh, ?_⟩
    rw [hpB, biomePass_spec, if_pos ?side, hpH]
    case side =>
      constructor
      · rw [saff]
        exact List.mem_filter.mpr ⟨List.mem_range.mpr hi, by simpa using hcond⟩
      · rw [hbl]; exact hi
  · intro hrd
    have hcond : ¬ brushDistSq m.points (m.points.getD (c * 2) 0)
        (m.points.getD (c * 2 + 1) 0) i ≤ radius * radius := by
      intro h
      exact absurd (hiff.mpr h) (not_le.mpr hrd)
    constructor
    · rw [hpH, slow i hi, if_neg hcond]
    · rw [hpB, biomePass_spec, if_neg ?nside]
      case nside =>
        rintro ⟨hmem, _⟩
        rw [saff] at hmem
        exact hcond (by simpa using (List.mem_filter.mp hmem).2)

/-- A concrete three-cell world for the paint witness: centers at `(0,0)`,
`(3,4)` and `(30,0)`. -/
def worldC3 : WorldMap where
  seed := 0
  width := 100
  height := 100
  points := [0, 0, 3, 4, 30, 0]
  cells :=
    { heights := [1/2, 1/2, 1/2]
      biomes := [2, 2, 2]
      states := [0, 0, 0]
      cultures := [0, 0, 0]
      pop := [0, 0, 0] }
  rivers := []
  roads := []
  cities := []
  castles := []
  markers := []
  labels := []
  states := []
  nextId := { city := 1, state := 1, castle := 1, marker := 1 }

/-- Oracles whose `Math.sqrt` is exact at the one input the paint witness
consults. -/
def extSqrt25 : MapExt :=
  { extTriv with sqrtQ := fun v => if v = 25 then 5 else 0 }

/-- Witness for C3: brush of radius 5 at cell 0, probe cell 1 at distance 5. -/
theorem HeightPaintTool.paint_spec_witness :
    (0 : ℚ) < 5 ∧
    1 < worldC3.cells.heights.length ∧
    worldC3.cells.biomes.length = worldC3.cells.heights.length ∧
    (0 : ℚ) ≤ 5 ∧
    ((5 : ℚ) * 5 = brushDistSq worldC3.points (worldC3.points.getD (0 * 2) 0)
      (worldC3.points.getD (0 * 2 + 1) 0) 1) ∧
    (extSqrt25.sqrtQ (brushDistSq worldC3.points
      (worldC3.points.getD (0 * 2) 0)
      (worldC3.points.getD (0 * 2 + 1) 0) 1) = 5) ∧
    (((5 : ℚ) ≤ 5 →
      (HeightPaintTool.paint extSqrt25 worldC3 5 (1/10)
          ⟨0, 0, ((0 : ℕ) : ℤ)⟩).cells.heights.getD 1 0 =
        clamp01 (worldC3.cells.heights.getD 1 0 + 1/10 * (1 - 5 / 5)) ∧
      (HeightPaintTool.paint extSqrt25 worldC3 5 (1/10)
          ⟨0, 0, ((0 : ℕ) : ℤ)⟩).cells.biomes.getD 1 0 =
        TerrainGenerator.updateCellBiome
          ((extSqrt25.mkNoise (extSqrt25.alea (worldC3.seed + 1)) 0).1)
          (worldC3.points.getD (1 * 2) 0) (worldC3.points.getD (1 * 2 + 1) 0)
          ((HeightPaintTool.paint extSqrt25 worldC3 5 (1/10)
            ⟨0, 0, ((0 : ℕ) : ℤ)⟩).cells.heights.getD 1 0)) ∧
    ((5 : ℚ) < 5 →
      (HeightPaintTool.paint extSqrt25 worldC3 5 (1/10)
          ⟨0, 0, ((0 : ℕ) : ℤ)⟩).cells.heights.getD 1 0 =
        worldC3.cells.heights.getD 1 0 ∧
      (HeightPaintTool.paint extSqrt25 worldC3 5 (1/10)
          ⟨0, 0, ((0 : ℕ) : ℤ)⟩).cells.biomes.getD 1 0 =
        worldC3.cells.biomes.getD 1 0)) :=
  ⟨by norm_num, by decide, rfl, by norm_num,
   by norm_num [brushDistSq, worldC3, List.getD],
   by norm_num [extSqrt25, extTriv, brushDistSq, worldC3, List.getD],
   HeightPaintTool.paint_spec extSqrt25 worldC3 5 (1/10) 0 0 0 1 5
     (by norm_num) (by decide) rfl (by norm_num)
     (by norm_num [brushDistSq, worldC3, List.getD])
     (by norm_num [extSqrt25, extTriv, brushDistSq, worldC3, List.getD])⟩

/-- The neighbour selected by `traceRiver`'s scan, when one exists, is no
higher than the current cell. -/
theorem RiverGenerator.lowestNeighbor_le (heights : List ℚ) (visited : List ℕ)
    (cur : ℕ) (nbs : List ℕ)
    (hne : (RiverGenerator.lowestNeighbor heights visited cur nbs).1 ≠ -1) :
    heights.getD (RiverGenerator.lowestNeighbor heights visited cur nbs).1.toNat 0 ≤
      heights.getD cur 0 := by
  have key : ∀ (l : List ℕ) (acc : ℤ × ℚ),
      (acc = (-1, heights.getD cur 0) ∨
        (acc.2 = heights.getD acc.1.toNat 0 ∧ acc.2 ≤ heights.getD cur 0)) →
      (l.foldl (RiverGenerator.lnStep heights visited) acc =
          (-1, heights.getD cur 0) ∨
        ((l.foldl (RiverGenerator.lnStep heights visited) acc).2 =
            heights.getD
              (l.foldl (RiverGenerator.lnStep heights visited) acc).1.toNat 0 ∧
          (l.foldl (RiverGenerator.lnStep heights visited) acc).2 ≤
            heights.getD cur 0)) := by
    intro l
    induction l with
    | nil => intro acc h; simpa using h
    | cons x xs ih =>
        intro acc h
        rw [List.foldl_cons]
        apply ih
        have hacc2 : acc.2 ≤ heights.getD cur 0 := by
          rcases h with h | h
          · rw [h]
          · exact h.2
        simp only [RiverGenerator.lnStep]
        by_cases hv : visited.contains x
        · rw [if_pos hv]; exact h
        · rw [if_neg hv]
          by_cases hle : heights.getD x 0 ≤ acc.2
          · rw [if_pos hle]
            right
            exact ⟨by simp, le_trans hle hacc2⟩
          · rw [if_neg hle]; exact h
  rw [RiverGenerator.lowestNeighbor] at hne ⊢
  rcases key nbs (-1, heights.getD cur 0) (Or.inl rfl) with h | h
  · exact absurd (congrArg Prod.fst h) hne
  · rw [← h.1]; exact h.2

/-- The descent relation along a river path: each next cell is no higher. -/
def riverDescent (heights : List ℚ) (a b : ℕ) : Prop :=
  heights.getD b 0 ≤ heights.getD a 0

/-- The `traceRiver` descent loop preserves the non-increasing-height chain
and never discards the accumulated path. -/
theorem RiverGenerator.traceGo_chain (nbrs : ℕ → List ℕ) (heights : List ℚ) :
    ∀ (fuel cur : ℕ) (visited path : List ℕ),
      path ≠ [] → path.getLast? = some cur →
      List.Chain' (riverDescent heights) path →
      (RiverGenerator.traceGo nbrs heights fuel cur visited path ≠ [] ∧
       List.Chain' (riverDescent heights)
         (RiverGenerator.traceGo nbrs heights fuel cur visited path)) := by
  intro fuel
  induction fuel with
  | zero => intro cur visited path hne _ hch; exact ⟨hne, hch⟩
  | succ fuel ih =>
      intro cur visited path hne hlast hch
      rw [RiverGenerator.traceGo]
      by_cases hstop : (RiverGenerator.lowestNeighbor heights visited cur
          (nbrs cur)).1 = -1 ∨
          (RiverGenerator.lowestNeighbor heights visited cur (nbrs cur)).1 =
            (cur : ℤ)
      · rw [if_pos hstop]; exact ⟨hne, hch⟩
      · rw [if_neg hstop]
        push_neg at hstop
        have hdesc : riverDescent heights cur
            (RiverGenerator.lowestNeighbor heights visited cur
              (nbrs cur)).1.toNat :=
          RiverGenerator.lowestNeighbor_le heights visited cur (nbrs cur) hstop.1
        have hch2 : List.Chain' (riverDescent heights)
            (path ++ [(RiverGenerator.lowestNeighbor heights visited cur
              (nbrs cur)).1.toNat]) := by
          rw [List.chain'_append]
          refine ⟨hch, List.chain'_singleton _, ?_⟩
          intro x hx y hy
          rw [hlast] at hx
          rw [List.head?_cons] at hy
          cases hx; cases hy
          exact hdesc
        have hne2 : path ++ [(RiverGenerator.lowestNeighbor heights visited cur
            (nbrs cur)).1.toNat] ≠ [] := by simp
        by_cases hwater : heights.getD
            (RiverGenerator.lowestNeighbor heights visited cur
              (nbrs cur)).1.toNat 0 < 1 / 5
        · rw [if_pos hwater]; exact ⟨hne2, hch2⟩
        · rw [if_neg hwater]
          exact ih _ _ _ hne2 (by simp) hch2

/-- The validity property of a retained river: it was built from a cell path
with at least 6 points whose last cell is below sea level, with
non-increasing heights along the whole path. -/
def RiverValid (points heights : List ℚ) (riv : River) : Prop :=
  ∃ path : List ℕ,
    riv.points = RiverGenerator.pathPoints points path ∧
    6 ≤ path.length ∧
    heights.getD (path.getLastD 0) 0 < 1 / 5 ∧
    List.Chain' (riverDescent heights) path

/-- Every river pushed by the retention loop of `RiverGenerator.generate`
satisfies `RiverValid`. -/
theorem RiverGenerator.riverLoop_valid (g : ℕ → ℚ) (nbrs : ℕ → List ℕ)
    (points heights : List ℚ) (count : ℕ) :
    ∀ (cands : List ℕ) (created r : ℕ) (acc : List River),
      (∀ riv ∈ acc, RiverValid points heights riv) →
      ∀ riv ∈ RiverGenerator.riverLoop g nbrs points heights count cands
        created r acc, RiverValid points heights riv := by
  intro cands
  induction cands with
  | nil => intro created r acc hacc; simpa [RiverGenerator.riverLoop] using hacc
  | cons startId rest ih =>
      intro created r acc hacc
      simp only [RiverGenerator.riverLoop]
      by_cases hdone : count ≤ created
      · rw [if_pos hdone]; exact hacc
      · rw [if_neg hdone]
        by_cases hkeep : 5 < (RiverGenerator.traceRiver nbrs heights startId).length ∧
            heights.getD ((RiverGenerator.traceRiver nbrs heights startId).getLastD 0) 0 < 1 / 5
        · rw [if_pos hkeep]
          apply ih
          intro riv hriv
          rcases List.mem_append.mp hriv with hin | hnew
          · exact hacc riv hin
          · have hriv2 : riv = ⟨"river-" ++ toString created,
                RiverGenerator.pathPoints points
                  (RiverGenerator.traceRiver nbrs heights startId),
                2 + g r * 2⟩ := by simpa using hnew
            subst hriv2
            refine ⟨RiverGenerator.traceRiver nbrs heights startId, rfl,
              hkeep.1, hkeep.2, ?_⟩
            exact (RiverGenerator.traceGo_chain nbrs heights
              (heights.length + 1) startId [startId] [startId] (by simp)
              (by simp) (List.chain'_singleton _)).2
        · rw [if_neg hkeep]
          exact ih created r acc hacc

/-- C5: every river retained by river generation was traced as a cell path
with at least 6 points, the cell of its last point has height strictly below
`0.20`, and the heights of the cells along its path are non-increasing from
each point to the next (in fact at every step, including the final one). -/
theorem RiverGenerator.generate_valid (ext : MapExt) (m : WorldMap)
    (seed : ℤ) (count : ℕ) (riv : River)
    (hriv : riv ∈ RiverGenerator.generate ext m seed count) :
    RiverValid m.points m.cells.heights riv := by
  apply RiverGenerator.riverLoop_valid (ext.alea (seed + 233))
    (ext.voronoiNeighbors m.points) m.points m.cells.heights count _ _ _ _
    (by intro riv h; exact absurd h (List.not_mem_nil riv))
  simpa [RiverGenerator.generate] using hriv

/-- A concrete six-cell chain world for the river witness: a single ridge
descending from cell 0 (height `0.7`) to the sea at cell 5 (height `0.1`). -/
def worldC5 : WorldMap where
  seed := 0
  width := 100
  height := 100
  points := [0, 0, 1, 0, 2, 0, 3, 0, 4, 0, 5, 0]
  cells :=
    { heights := [7/10, 1/2, 9/20, 2/5, 3/10, 1/10]
      biomes := [5, 2, 2, 2, 1, 0]
      states := [0, 0, 0, 0, 0, 0]
      cultures := [0, 0, 0, 0, 0, 0]
      pop := [0, 0, 0, 0, 0, 0] }
  rivers := []
  roads := []
  cities := []
  castles := []
  markers := []
  labels := []
  states := []
  nextId := { city := 1, state := 1, castle := 1, marker := 1 }

/-- Oracles for the river witness: chain adjacency over six cells. -/
def extC5 : MapExt :=
  { extTriv with
      voronoiNeighbors := fun _ i =>
        if i = 0 then [1]
        else if i = 5 then [4]
        else if i ≤ 5 then [i - 1, i + 1]
        else [] }

/-- Witness for C5: the river traced from cell 0 of `worldC5` is retained
and valid. -/
theorem RiverGenerator.generate_valid_witness :
    ((⟨"river-0", [⟨0, 0⟩, ⟨1, 0⟩, ⟨2, 0⟩, ⟨3, 0⟩, ⟨4, 0⟩, ⟨5, 0⟩], 2⟩ : River) ∈
      RiverGenerator.generate extC5 worldC5 0 30) ∧
    RiverValid worldC5.points worldC5.cells.heights
      ⟨"river-0", [⟨0, 0⟩, ⟨1, 0⟩, ⟨2, 0⟩, ⟨3, 0⟩, ⟨4, 0⟩, ⟨5, 0⟩], 2⟩ := by
  have hgen : RiverGenerator.generate extC5 worldC5 0 30 =
      [⟨"river-0", [⟨0, 0⟩, ⟨1, 0⟩, ⟨2, 0⟩, ⟨3, 0⟩, ⟨4, 0⟩, ⟨5, 0⟩], 2⟩] := by
    with_unfolding_all rfl
  refine ⟨?hm, RiverGenerator.generate_valid extC5 worldC5 0 30 _ ?hm⟩
  rw [hgen]
  exact List.mem_singleton.mpr rfl

/-- Default element used for positional reads of city lists in proofs. -/
def cityDefault : City := ⟨0, 0, "", 0, .Village⟩

/-- Default element used for positional reads of state lists in proofs. -/
def stateDefault : State := ⟨0, "", "", -1, 0, 0, 0⟩

/-- The cell hosting a state's capital: owned by the state, of maximal
height among the state's cells, ties resolved to the first such cell in
ascending cell-id scan order. -/
def FirstArgmax (heights : List ℚ) (cellStates : List ℕ) (sid : ℕ) (i : ℕ) :
    Prop :=
  i < heights.length ∧ cellStates.getD i 0 = sid ∧
  (∀ j, j < heights.length → cellStates.getD j 0 = sid →
    heights.getD j 0 ≤ heights.getD i 0) ∧
  (∀ j, j < i → cellStates.getD j 0 = sid → heights.getD j 0 < heights.getD i 0)

/-- Invariant of the capital-cell scan over the first `n` cells: either no
cell so far qualifies, or the accumulator holds the first maximal qualifying
cell of the prefix. -/
theorem CityGenerator.capScan_inv (heights : List ℚ) (cellStates : List ℕ)
    (sid : ℕ) : ∀ n : ℕ,
    ((((List.range n).foldl (CityGenerator.capStep heights cellStates sid)
        (-1, -1)).1 = -1 ∧
      ((List.range n).foldl (CityGenerator.capStep heights cellStates sid)
        (-1, -1)).2 = -1 ∧
      (∀ j, j < n → ¬(cellStates.getD j 0 = sid ∧ -1 < heights.getD j 0))) ∨
    (∃ i0, i0 < n ∧
      ((List.range n).foldl (CityGenerator.capStep heights cellStates sid)
        (-1, -1)).1 = (i0 : ℤ) ∧
      ((List.range n).foldl (CityGenerator.capStep heights cellStates sid)
        (-1, -1)).2 = heights.getD i0 0 ∧
      cellStates.getD i0 0 = sid ∧
      (∀ j, j < n → cellStates.getD j 0 = sid →
        heights.getD j 0 ≤ heights.getD i0 0) ∧
      (∀ j, j < i0 → cellStates.getD j 0 = sid →
        heights.getD j 0 < heights.getD i0 0))) := by
  intro n
  induction n with
  | zero => exact Or.inl ⟨rfl, rfl, fun j hj => absurd hj (Nat.not_lt_zero j)⟩
  | succ n ih =>
      rw [List.range_succ, List.foldl_append, List.foldl_cons, List.foldl_nil]
      rcases ih with ⟨h1, h2, h3⟩ | ⟨i0, hi0n, e1, e2, hsid, hmax, hfirst⟩
      · simp only [CityGenerator.capStep, h2]
        by_cases hc : cellStates.getD n 0 = sid ∧ (-1 : ℚ) < heights.getD n 0
        · rw [if_pos hc]
          refine Or.inr ⟨n, Nat.lt_succ_self n, rfl, rfl, hc.1, ?_, ?_⟩
          · intro j hj hjs
            rcases Nat.lt_succ_iff_lt_or_eq.mp hj with hj | hj
            · have hle : heights.getD j 0 ≤ -1 := by
                by_contra hgt
                push_neg at hgt
                exact h3 j hj ⟨hjs, hgt⟩
              exact le_of_lt (lt_of_le_of_lt hle hc.2)
            · rw [hj]
          · intro j hj hjs
            by_contra hnot
            push_neg at hnot
            exact h3 j hj ⟨hjs, lt_of_lt_of_le hc.2 hnot⟩
        · rw [if_neg hc]
          refine Or.inl ⟨h1, h2, ?_⟩
          intro j hj
          rcases Nat.lt_succ_iff_lt_or_eq.mp hj with hj | hj
          · exact h3 j hj
          · rw [hj]; exact hc
      · simp only [CityGenerator.capStep, e2]
        by_cases hc : cellStates.getD n 0 = sid ∧
            heights.getD i0 0 < heights.getD n 0
        · rw [if_pos hc]
          refine Or.inr ⟨n, Nat.lt_succ_self n, rfl, rfl, hc.1, ?_, ?_⟩
          · intro j hj hjs
            rcases Nat.lt_succ_iff_lt_or_eq.mp hj with hj | hj
            · exact (lt_of_le_of_lt (hmax j hj hjs) hc.2).le
            · rw [hj]
          · intro j hj hjs
            exact lt_of_le_of_lt (hmax j hj hjs) hc.2
        · rw [if_neg hc]
          refine Or.inr ⟨i0, Nat.lt_succ_of_lt hi0n, e1, e2, hsid, ?_, hfirst⟩
          intro j hj hjs
          rcases Nat.lt_succ_iff_lt_or_eq.mp hj with hj | hj
          · exact hmax j hj hjs
          · rw [hj]
            by_contra hnot
            push_neg at hnot
            exact hc ⟨hj ▸ hjs, hnot⟩

/-- `findCapitalCell` finds the first maximal-height owned cell whenever the
state owns a cell and owned heights exceed the scan's `-1` sentinel. -/
theorem CityGenerator.findCapitalCell_spec (heights : List ℚ)
    (cellStates : List ℕ) (sid : ℕ)
    (hpos : ∀ j, j < heights.length → cellStates.getD j 0 = sid →
      -1 < heights.getD j 0)
    (hex : ∃ j, j < heights.length ∧ cellStates.getD j 0 = sid) :
    (CityGenerator.findCapitalCell heights cellStates sid).1 ≠ -1 ∧
    FirstArgmax heights cellStates sid
      (CityGenerator.findCapitalCell heights cellStates sid).1.toNat := by
  obtain ⟨j, hj, hjs⟩ := hex
  rcases CityGenerator.capScan_inv heights cellStates sid heights.length with
    ⟨h1, h2, h3⟩ | ⟨i0, hi0, e1, e2, hsid, hmax, hfirst⟩
  · exact absurd ⟨hjs, hpos j hj hjs⟩ (h3 j hj)
  · constructor
    · rw [CityGenerator.findCapitalCell, e1]
      omega
    · rw [CityGenerator.findCapitalCell, e1, Int.toNat_natCast]
      exact ⟨hi0, hsid, hmax, hfirst⟩

/-- Invariants of the capital-placement loop: city ids stay positional
(`id = index + 1`), the city list only grows, already-emitted states are
untouched, and every remaining state owning a cell gets exactly one capital
at its first maximal-height cell, cross-referenced by `capitalId`. -/
theorem CityGenerator.capitalsLoop_spec (g : ℕ → ℚ) (heights : List ℚ)
    (cellStates : List ℕ) :
    ∀ (sts : List State) (cities0 : List City) (sAcc0 : List State)
      (nid0 r0 : ℕ),
      nid0 = cities0.length + 1 →
      (∀ j, j < cities0.length → (cities0.getD j cityDefault).id = j + 1) →
      ((CityGenerator.capitalsLoop g heights cellStates sts
          (cities0, sAcc0, nid0, r0)).2.2.1 =
        (CityGenerator.capitalsLoop g heights cellStates sts
          (cities0, sAcc0, nid0, r0)).1.length + 1) ∧
      (∀ j, j < (CityGenerator.capitalsLoop g heights cellStates sts
          (cities0, sAcc0, nid0, r0)).1.length →
        ((CityGenerator.capitalsLoop g heights cellStates sts
          (cities0, sAcc0, nid0, r0)).1.getD j cityDefault).id = j + 1) ∧
      (∃ pre, (CityGenerator.capitalsLoop g heights cellStates sts
          (cities0, sAcc0, nid0, r0)).1 = cities0 ++ pre) ∧
      ((CityGenerator.capitalsLoop g heights cellStates sts
          (cities0, sAcc0, nid0, r0)).2.1.length =
        sAcc0.length + sts.length) ∧
      (∀ k, k < sAcc0.length →
        (CityGenerator.capitalsLoop g heights cellStates sts
          (cities0, sAcc0, nid0, r0)).2.1.getD k stateDefault =
          sAcc0.getD k stateDefault) ∧
      (∀ k, k < sts.length →
        (∀ j, j < heights.length →
          cellStates.getD j 0 = (sts.getD k stateDefault).id →
          -1 < heights.getD j 0) →
        (∃ j, j < heights.length ∧
          cellStates.getD j 0 = (sts.getD k stateDefault).id) →
        ∃ idx, idx < (CityGenerator.capitalsLoop g heights cellStates sts
            (cities0, sAcc0, nid0, r0)).1.length ∧
          ((CityGenerator.capitalsLoop g heights cellStates sts
            (cities0, sAcc0, nid0, r0)).1.getD idx cityDefault).type =
            .Capital ∧
          ((CityGenerator.capitalsLoop g heights cellStates sts
            (cities0, sAcc0, nid0, r0)).1.getD idx cityDefault).id = idx + 1 ∧
          FirstArgmax heights cellStates (sts.getD k stateDefault).id
            ((CityGenerator.capitalsLoop g heights cellStates sts
              (cities0, sAcc0, nid0, r0)).1.getD idx cityDefault).cellId ∧
          (CityGenerator.capitalsLoop g heights cellStates sts
            (cities0, sAcc0, nid0, r0)).2.1.getD (sAcc0.length + k)
              stateDefault =
            { sts.getD k stateDefault with
                capitalId := ((idx + 1 : ℕ) : ℤ) }) := by
  intro sts
  induction sts with
  | nil =>
      intro cities0 sAcc0 nid0 r0 hnid hids
      simp only [CityGenerator.capitalsLoop]
      refine ⟨hnid, hids, ⟨[], (List.append_nil cities0).symm⟩, ?_, ?_,
        fun k hk => absurd hk (Nat.not_lt_zero k)⟩
      · simp
      · simp
  | cons s rest ih =>
      intro cities0 sAcc0 nid0 r0 hnid hids
      simp only [CityGenerator.capitalsLoop]
      by_cases hbest : (CityGenerator.findCapitalCell heights cellStates s.id).1 = -1
      · rw [if_pos hbest]
        obtain ⟨ih1, ih2, ⟨pre, ihpre⟩, ih4, ih5, ih6⟩ :=
          ih cities0 (sAcc0 ++ [s]) nid0 r0 hnid hids
        refine ⟨ih1, ih2, ⟨pre, ihpre⟩, ?_, ?_, ?_⟩
        · rw [ih4]
          simp only [List.length_append, List.length_cons, List.length_nil]
          omega
        · intro k hk
          rw [ih5 k (by simp only [List.length_append, List.length_cons, List.length_nil]; omega),
            List.getD_append _ _ _ _ hk]
        · intro k hk hpos hex
          match k with
          | 0 =>
              exact absurd hbest (CityGenerator.findCapitalCell_spec heights
                cellStates s.id (by simpa using hpos) (by simpa using hex)).1
          | k + 1 =>
              obtain ⟨idx, h1, h2, h3, h4, h5⟩ := ih6 k
                (by simpa using Nat.lt_of_succ_lt_succ hk)
                (by simpa using hpos) (by simpa using hex)
              refine ⟨idx, h1, h2, h3, by simpa using h4, ?_⟩
              simp only [List.length_append, List.length_cons, List.length_nil] at h5
              have heq : sAcc0.length + (k + 1) = sAcc0.length + 1 + k := by
                omega
              rw [heq]
              simpa using h5
      · rw [if_neg hbest]
        obtain ⟨ih1, ih2, ⟨pre, ihpre⟩, ih4, ih5, ih6⟩ :=
          ih (cities0 ++ [(⟨nid0,
              (CityGenerator.findCapitalCell heights cellStates s.id).1.toNat,
              (generateCityName g r0).1 ++ " " ++ capitalMarker s.name,
              ⌊g (generateCityName g r0).2 * 50000⌋ + 10000,
              .Capital⟩ : City)])
            (sAcc0 ++ [({ s with capitalId := (nid0 : ℤ) } : State)]) (nid0 + 1)
            ((generateCityName g r0).2 + 1)
            (by simp [hnid])
            (by
              intro j hj
              rcases Nat.lt_or_ge j cities0.length with hj2 | hj2
              · rw [List.getD_append _ _ _ _ hj2]
                exact hids j hj2
              · have hjeq : j = cities0.length := by
                  simp only [List.length_append, List.length_cons, List.length_nil] at hj
                  omega
                subst hjeq
                rw [List.getD_append_right _ _ _ _ le_rfl]
                simp [hnid])
        refine ⟨ih1, ih2, ?_, ?_, ?_, ?_⟩
        · rw [ihpre, List.append_assoc]
          exact ⟨_, rfl⟩
        · rw [ih4]
          simp only [List.length_append, List.length_cons, List.length_nil]
          omega
        · intro k hk
          rw [ih5 k (by simp only [List.length_append, List.length_cons, List.length_nil]; omega),
            List.getD_append _ _ _ _ hk]
        · intro k hk hpos hex
          match k with
          | 0 =>
              refine ⟨cities0.length, ?_, ?_, ?_, ?_, ?_⟩
              · rw [ihpre]
                simp
              · rw [ihpre, List.getD_append _ _ _ _ (by simp),
                  List.getD_append_right _ _ _ _ le_rfl]
                simp
              · rw [ihpre, List.getD_append _ _ _ _ (by simp),
                  List.getD_append_right _ _ _ _ le_rfl]
                simp [hnid]
              · rw [ihpre, List.getD_append _ _ _ _ (by simp),
                  List.getD_append_right _ _ _ _ le_rfl]
                simp only [Nat.sub_self, List.getD_cons_zero]
                have := (CityGenerator.findCapitalCell_spec heights cellStates
                  s.id (by simpa using hpos) (by simpa using hex)).2
                simpa using this
              · have h0 : sAcc0.length + 0 = sAcc0.length := rfl
                rw [h0,
                  ih5 sAcc0.length
                    (by simp only [List.length_append, List.length_cons, List.length_nil]; omega),
                  List.getD_append_right _ _ _ _ le_rfl]
                simp [hnid]
          | k + 1 =>
              obtain ⟨idx, h1, h2, h3, h4, h5⟩ := ih6 k
                (by simpa using Nat.lt_of_succ_lt_succ hk)
                (by simpa using hpos) (by simpa using hex)
              refine ⟨idx, h1, h2, h3, by simpa using h4, ?_⟩
              simp only [List.length_append, List.length_cons, List.length_nil] at h5
              have heq : sAcc0.length + (k + 1) = sAcc0.length + 1 + k := by
                omega
              rw [heq]
              simpa using h5

/-- The town loop keeps city ids positional and only appends. -/
theorem CityGenerator.townsLoop_spec (g : ℕ → ℚ) :
    ∀ (cnt : ℕ) (pool : List ℕ) (cities : List City) (nid r : ℕ),
      nid = cities.length + 1 →
      (∀ j, j < cities.length → (cities.getD j cityDefault).id = j + 1) →
      ((CityGenerator.townsLoop g cnt pool cities nid r).2.2.1 =
        (CityGenerator.townsLoop g cnt pool cities nid r).1.length + 1) ∧
      (∀ j, j < (CityGenerator.townsLoop g cnt pool cities nid r).1.length →
        ((CityGenerator.townsLoop g cnt pool cities nid r).1.getD j
          cityDefault).id = j + 1) ∧
      (∃ pre, (CityGenerator.townsLoop g cnt pool cities nid r).1 =
        cities ++ pre) := by
  intro cnt
  induction cnt with
  | zero =>
      intro pool cities nid r hnid hids
      exact ⟨hnid, hids, ⟨[], (List.append_nil cities).symm⟩⟩
  | succ cnt ih =>
      intro pool cities nid r hnid hids
      simp only [CityGenerator.townsLoop]
      by_cases hpool : pool.length = 0
      · rw [if_pos hpool]
        exact ⟨hnid, hids, ⟨[], (List.append_nil cities).symm⟩⟩
      · rw [if_neg hpool]
        obtain ⟨ih1, ih2, ⟨pre, ihpre⟩⟩ := ih
          (pool.take (⌊g r * (pool.length : ℚ)⌋).toNat ++
            pool.drop ((⌊g r * (pool.length : ℚ)⌋).toNat + 1))
          (cities ++ [(⟨nid, pool.getD (⌊g r * (pool.length : ℚ)⌋).toNat 0,
            (generateCityName g (r + 1)).1,
            ⌊g (generateCityName g (r + 1)).2 * 5000⌋ + 2000, .Town⟩ : City)])
          (nid + 1) ((generateCityName g (r + 1)).2 + 1)
          (by simp [hnid])
          (by
            intro j hj
            rcases Nat.lt_or_ge j cities.length with hj2 | hj2
            · rw [List.getD_append _ _ _ _ hj2]
              exact hids j hj2
            · have hjeq : j = cities.length := by
                simp only [List.length_append, List.length_cons,
                  List.length_nil] at hj
                omega
              subst hjeq
              rw [List.getD_append_right _ _ _ _ le_rfl]
              simp [hnid])
        refine ⟨ih1, ih2, ?_⟩
        rw [ihpre, List.append_assoc]
        exact ⟨_, rfl⟩

/-- The village loop keeps city ids positional and only appends. -/
theorem CityGenerator.villagesLoop_spec (g : ℕ → ℚ) :
    ∀ (cnt : ℕ) (pool : List ℕ) (cities : List City) (nid r : ℕ),
      nid = cities.length + 1 →
      (∀ j, j < cities.length → (cities.getD j cityDefault).id = j + 1) →
      ((CityGenerator.villagesLoop g cnt pool cities nid r).2.2.1 =
        (CityGenerator.villagesLoop g cnt pool cities nid r).1.length + 1) ∧
      (∀ j, j < (CityGenerator.villagesLoop g cnt pool cities nid r).1.length →
        ((CityGenerator.villagesLoop g cnt pool cities nid r).1.getD j
          cityDefault).id = j + 1) ∧
      (∃ pre, (CityGenerator.villagesLoop g cnt pool cities nid r).1 =
        cities ++ pre) := by
  intro cnt
  induction cnt with
  | zero =>
      intro pool cities nid r hnid hids
      exact ⟨hnid, hids, ⟨[], (List.append_nil cities).symm⟩⟩
  | succ cnt ih =>
      intro pool cities nid r hnid hids
      simp only [CityGenerator.villagesLoop]
      by_cases hpool : pool.length = 0
      · rw [if_pos hpool]
        exact ⟨hnid, hids, ⟨[], (List.append_nil cities).symm⟩⟩
      · rw [if_neg hpool]
        obtain ⟨ih1, ih2, ⟨pre, ihpre⟩⟩ := ih
          (pool.take (⌊g r * (pool.length : ℚ)⌋).toNat ++
            pool.drop ((⌊g r * (pool.length : ℚ)⌋).toNat + 1))
          (cities ++ [(⟨nid, pool.getD (⌊g r * (pool.length : ℚ)⌋).toNat 0,
            (generateCityName g (r + 1)).1.toLower,
            ⌊g (generateCityName g (r + 1)).2 * 500⌋ + 100, .Village⟩ : City)])
          (nid + 1) ((generateCityName g (r + 1)).2 + 1)
          (by simp [hnid])
          (by
            intro j hj
            rcases Nat.lt_or_ge j cities.length with hj2 | hj2
            · rw [List.getD_append _ _ _ _ hj2]
              exact hids j hj2
            · have hjeq : j = cities.length := by
                simp only [List.length_append, List.length_cons,
                  List.length_nil] at hj
                omega
              subst hjeq
              rw [List.getD_append_right _ _ _ _ le_rfl]
              simp [hnid])
        refine ⟨ih1, ih2, ?_⟩
        rw [ihpre, List.append_assoc]
        exact ⟨_, rfl⟩

/-- C6: for every state that owns at least one cell, city generation creates
exactly one city of type Capital for it, whose `cellId` is a cell of maximum
height among the cells with that state's id (ties resolved to the first such
cell in ascending scan order), and sets the state's `capitalId` to that
city's id (leaving the state otherwise unchanged). -/
theorem CityGenerator.generate_capital_spec (ext : MapExt) (m : WorldMap)
    (seed : ℤ)
    (hh : ∀ x ∈ m.cells.heights, 0 ≤ x)
    (k : ℕ) (hk : k < m.states.length)
    (hex : ∃ j, j < m.cells.heights.length ∧
      m.cells.states.getD j 0 = (m.states.getD k stateDefault).id) :
    ∃ c ∈ (CityGenerator.generate ext m seed).1,
      c.type = .Capital ∧
      FirstArgmax m.cells.heights m.cells.states
        (m.states.getD k stateDefault).id c.cellId ∧
      (CityGenerator.generate ext m seed).2.getD k stateDefault =
        { m.states.getD k stateDefault with capitalId := (c.id : ℤ) } ∧
      (∀ c2 ∈ (CityGenerator.generate ext m seed).1, c2.id = c.id → c2 = c) := by
  have hpos : ∀ j, j < m.cells.heights.length →
      m.cells.states.getD j 0 = (m.states.getD k stateDefault).id →
      -1 < m.cells.heights.getD j 0 := by
    intro j hj _
    have hmem : m.cells.heights.getD j 0 ∈ m.cells.heights := by
      rw [List.getD_eq_getElem _ _ hj]
      exact List.getElem_mem hj
    linarith [hh _ hmem]
  have hstageEq : CityGenerator.capitalsStage ext m seed =
      CityGenerator.capitalsLoop (ext.alea seed) m.cells.heights
        m.cells.states m.states ([], [], 1, 0) := rfl
  obtain ⟨cl1, cl2, ⟨preC, hpreC⟩, cl4, cl5, cl6⟩ :=
    CityGenerator.capitalsLoop_spec (ext.alea seed) m.cells.heights
      m.cells.states m.states [] [] 1 0 rfl
      (by intro j hj; exact absurd hj (Nat.not_lt_zero j))
  obtain ⟨idx, hidx, htype, hid, harg, hstate⟩ := cl6 k hk hpos hex
  rw [← hstageEq] at cl1 cl2 hidx htype hid harg hstate
  have hT : CityGenerator.townsStage ext m seed =
      CityGenerator.townsLoop (ext.alea seed) (CityGenerator.numTowns m)
        (CityGenerator.townPool ext m seed)
        (CityGenerator.capitalsStage ext m seed).1
        (CityGenerator.capitalsStage ext m seed).2.2.1
        (CityGenerator.capitalsStage ext m seed).2.2.2 := rfl
  obtain ⟨tl1, tl2, ⟨preT, hpreT⟩⟩ :=
    CityGenerator.townsLoop_spec (ext.alea seed) (CityGenerator.numTowns m)
      (CityGenerator.townPool ext m seed)
      (CityGenerator.capitalsStage ext m seed).1
      (CityGenerator.capitalsStage ext m seed).2.2.1
      (CityGenerator.capitalsStage ext m seed).2.2.2 cl1 cl2
  rw [← hT] at tl1 tl2 hpreT
  have hV : CityGenerator.villagesStage ext m seed =
      CityGenerator.villagesLoop (ext.alea seed) (CityGenerator.numTowns m * 2)
        (CityGenerator.townsStage ext m seed).2.1
        (CityGenerator.townsStage ext m seed).1
        (CityGenerator.townsStage ext m seed).2.2.1
        (CityGenerator.townsStage ext m seed).2.2.2 := rfl
  obtain ⟨vl1, vl2, ⟨preV, hpreV⟩⟩ :=
    CityGenerator.villagesLoop_spec (ext.alea seed)
      (CityGenerator.numTowns m * 2)
      (CityGenerator.townsStage ext m seed).2.1
      (CityGenerator.townsStage ext m seed).1
      (CityGenerator.townsStage ext m seed).2.2.1
      (CityGenerator.townsStage ext m seed).2.2.2 tl1 tl2
  rw [← hV] at vl1 vl2 hpreV
  have hg1 : (CityGenerator.generate ext m seed).1 =
      (CityGenerator.villagesStage ext m seed).1 := rfl
  have hg2 : (CityGenerator.generate ext m seed).2 =
      (CityGenerator.capitalsStage ext m seed).2.1 := rfl
  have hfull : (CityGenerator.villagesStage ext m seed).1 =
      (CityGenerator.capitalsStage ext m seed).1 ++ (preT ++ preV) := by
    rw [hpreV, hpreT, List.append_assoc]
  have hlenfull : idx < (CityGenerator.villagesStage ext m seed).1.length := by
    rw [hfull, List.length_append]
    omega
  have hc : (CityGenerator.villagesStage ext m seed).1.getD idx cityDefault =
      (CityGenerator.capitalsStage ext m seed).1.getD idx cityDefault := by
    rw [hfull, List.getD_append _ _ _ _ hidx]
  have hcid : ((CityGenerator.villagesStage ext m seed).1.getD idx
      cityDefault).id = idx + 1 := by
    rw [hc]
    exact hid
  refine ⟨(CityGenerator.villagesStage ext m seed).1.getD idx cityDefault,
    ?_, ?_, ?_, ?_, ?_⟩
  · rw [hg1, List.getD_eq_getElem _ _ hlenfull]
    exact List.getElem_mem hlenfull
  · rw [hc]
    exact htype
  · rw [hc]
    exact harg
  · rw [hg2, hcid]
    have h0k : (0 : ℕ) + k = k := by omega
    have := hstate
    simp only [List.length_nil] at this
    rw [h0k] at this
    exact this
  · intro c2 hc2 hc2id
    rw [hg1] at hc2
    obtain ⟨p, hp, hpe⟩ := List.mem_iff_getElem.mp hc2
    have hpid : ((CityGenerator.villagesStage ext m seed).1.getD p
        cityDefault).id = p + 1 := vl2 p hp
    rw [List.getD_eq_getElem _ _ hp, hpe] at hpid
    have hpeq : p = idx := by
      rw [hc2id, hcid] at hpid
      omega
    subst hpeq
    rw [← hpe, List.getD_eq_getElem _ _ hlenfull]

/-- A concrete three-cell world with one state owning cells 0 and 1 for the
capital-placement witness. -/
def worldC6 : WorldMap where
  seed := 0
  width := 100
  height := 100
  points := [0, 0, 1, 0, 2, 0]
  cells :=
    { heights := [1/2, 7/10, 1/10]
      biomes := [2, 5, 0]
      states := [1, 1, 0]
      cultures := [0, 0, 0]
      pop := [0, 0, 0] }
  rivers := []
  roads := []
  cities := []
  castles := []
  markers := []
  labels := []
  states := [⟨1, "Aaa", "#fff", -1, 0, 0, 2⟩]
  nextId := { city := 1, state := 2, castle := 1, marker := 1 }

/-- Witness for C6 on `worldC6`: its single state owns cell 1 of maximal
height and gets a capital there. -/
theorem CityGenerator.generate_capital_spec_witness :
    (∀ x ∈ worldC6.cells.heights, 0 ≤ x) ∧
    0 < worldC6.states.length ∧
    (∃ j, j < worldC6.cells.heights.length ∧
      worldC6.cells.states.getD j 0 = (worldC6.states.getD 0 stateDefault).id) ∧
    (∃ c ∈ (CityGenerator.generate extTriv worldC6 0).1,
      c.type = .Capital ∧
      FirstArgmax worldC6.cells.heights worldC6.cells.states
        (worldC6.states.getD 0 stateDefault).id c.cellId ∧
      (CityGenerator.generate extTriv worldC6 0).2.getD 0 stateDefault =
        { worldC6.states.getD 0 stateDefault with capitalId := (c.id : ℤ) } ∧
      (∀ c2 ∈ (CityGenerator.generate extTriv worldC6 0).1, c2.id = c.id →
        c2 = c)) :=
  ⟨by norm_num [worldC6], by norm_num [worldC6],
   ⟨1, by norm_num [worldC6], by norm_num [worldC6, stateDefault, List.getD]⟩,
   CityGenerator.generate_capital_spec extTriv worldC6 0
     (by norm_num [worldC6]) 0 (by norm_num [worldC6])
     ⟨1, by norm_num [worldC6], by norm_num [worldC6, stateDefault, List.getD]⟩⟩

/-- Reachability through claimed cells: `Reaches nbrs cs sid a i` holds when
cell `i` can be reached from cell `a` by a chain of mesh-neighbour steps
whose every stepped-to cell is claimed by state `sid` in `cs`. -/
inductive Reaches (nbrs : ℕ → List ℕ) (cs : List ℕ) (sid : ℕ) (a : ℕ) :
    ℕ → Prop
  | refl : Reaches nbrs cs sid a a
  | step {b c : ℕ} : Reaches nbrs cs sid a b → c ∈ nbrs b →
      cs.getD c 0 = sid → Reaches nbrs cs sid a c

/-- Reachability is preserved when the ownership array only changes on
previously unclaimed cells. -/
theorem Reaches.mono {nbrs : ℕ → List ℕ} {cs cs' : List ℕ} {sid a b : ℕ}
    (hm : ∀ i, cs.getD i 0 ≠ 0 → cs'.getD i 0 = cs.getD i 0) (hsid : sid ≠ 0)
    (h : Reaches nbrs cs sid a b) : Reaches nbrs cs' sid a b := by
  induction h with
  | refl => exact .refl
  | step hr hmem hc ih =>
      exact .step ih hmem (by rw [hm _ (by rw [hc]; exact hsid), hc])

/-- The bundle of invariants maintained by the region-growth loop: the
ownership array keeps its length, every queued cell is claimed by its
owner state, every seed keeps its state id, and every claimed cell is
reachable from its state's seed cell through claimed cells. -/
def GrowInv (nbrs : ℕ → List ℕ) (seeds : List ℕ) (n : ℕ) (st : GrowSt) :
    Prop :=
  st.cellStates.length = n ∧
  (∀ k, ∀ c ∈ st.queues.getD k [], st.cellStates.getD c 0 = k + 1) ∧
  (∀ k, k < seeds.length → st.cellStates.getD (seeds.getD k 0) 0 = k + 1) ∧
  (∀ k i, st.cellStates.getD i 0 = k + 1 →
    Reaches nbrs st.cellStates (k + 1) (seeds.getD k 0) i)

/-- `claimNeighbors` preserves the growth invariants of the shared ownership
array, claims only previously unclaimed cells, and every cell it leaves in
the queue is claimed by the owner state. -/
theorem StateGenerator.claimNeighbors_inv (g : ℕ → ℚ) (heights : List ℚ)
    (nbrs : ℕ → List ℕ) (seeds : List ℕ) (n : ℕ) (k cur : ℕ)
    (hnbrs : ∀ c, ∀ j ∈ nbrs c, j < n) :
    ∀ (nbList : List ℕ) (t : TurnSt),
      (∀ x ∈ nbList, x ∈ nbrs cur) →
      t.cellStates.length = n →
      (∀ c ∈ t.queue, t.cellStates.getD c 0 = k + 1) →
      t.cellStates.getD cur 0 = k + 1 →
      (∀ k2, k2 < seeds.length →
        t.cellStates.getD (seeds.getD k2 0) 0 = k2 + 1) →
      (∀ k2 i, t.cellStates.getD i 0 = k2 + 1 →
        Reaches nbrs t.cellStates (k2 + 1) (seeds.getD k2 0) i) →
      ((StateGenerator.claimNeighbors g heights (k + 1) cur nbList
          t).cellStates.length = n ∧
       (∀ i, t.cellStates.getD i 0 ≠ 0 →
         (StateGenerator.claimNeighbors g heights (k + 1) cur nbList
           t).cellStates.getD i 0 = t.cellStates.getD i 0) ∧
       (∀ c ∈ (StateGenerator.claimNeighbors g heights (k + 1) cur nbList
           t).queue,
         (StateGenerator.claimNeighbors g heights (k + 1) cur nbList
           t).cellStates.getD c 0 = k + 1) ∧
       (∀ k2, k2 < seeds.length →
         (StateGenerator.claimNeighbors g heights (k + 1) cur nbList
           t).cellStates.getD (seeds.getD k2 0) 0 = k2 + 1) ∧
       (∀ k2 i, (StateGenerator.claimNeighbors g heights (k + 1) cur nbList
           t).cellStates.getD i 0 = k2 + 1 →
         Reaches nbrs (StateGenerator.claimNeighbors g heights (k + 1) cur
           nbList t).cellStates (k2 + 1) (seeds.getD k2 0) i)) := by
  intro nbList
  induction nbList with
  | nil =>
      intro t _ hlen hq hcur hseeds hreach
      exact ⟨hlen, fun i _ => rfl, hq, hseeds, hreach⟩
  | cons nb rest ih =>
      intro t hsub hlen hq hcur hseeds hreach
      rw [StateGenerator.claimNeighbors]
      by_cases hclaimed : t.cellStates.getD nb 0 ≠ 0
      · rw [if_pos hclaimed]
        exact ih t (fun x hx => hsub x (List.mem_cons_of_mem nb hx)) hlen hq
          hcur hseeds hreach
      · rw [if_neg hclaimed]
        push_neg at hclaimed
        by_cases hocean : heights.getD nb 0 ≤ 1 / 5
        · rw [if_pos hocean]
          exact ih t (fun x hx => hsub x (List.mem_cons_of_mem nb hx)) hlen hq
            hcur hseeds hreach
        · rw [if_neg hocean]
          by_cases hroll : g t.r < 17 / 20
          · rw [if_pos hroll]
            have hnbn : nb < n := hnbrs cur nb (hsub nb (List.mem_cons_self nb rest))
            have hmono : ∀ i, t.cellStates.getD i 0 ≠ 0 →
                (t.cellStates.set nb (k + 1)).getD i 0 = t.cellStates.getD i 0 := by
              intro i hi
              by_cases hib : nb = i
              · subst hib
                exact absurd hclaimed hi
              · exact listGetD_set_ne hib _ _
            have hsetself : (t.cellStates.set nb (k + 1)).getD nb 0 = k + 1 :=
              listGetD_set_self (by rw [hlen]; exact hnbn) _ _
            obtain ⟨c1, c2, c3, c4, c5⟩ := ih
              { cellStates := t.cellStates.set nb (k + 1)
                queue := t.queue ++ [nb]
                count := t.count + 1
                r := t.r + 1
                active := true }
              (fun x hx => hsub x (List.mem_cons_of_mem nb hx))
              (by simpa using hlen)
              (by
                intro c hc
                rcases List.mem_append.mp hc with hc | hc
                · rw [hmono c (by rw [hq c hc]; omega)]
                  exact hq c hc
                · rw [List.mem_singleton.mp hc]
                  exact hsetself)
              (by rw [hmono cur (by rw [hcur]; omega)]; exact hcur)
              (by
                intro k2 hk2
                rw [hmono _ (by rw [hseeds k2 hk2]; omega)]
                exact hseeds k2 hk2)
              (by
                intro k2 i hi
                by_cases hib : i = nb
                · have hk2k : k2 = k := by
                    rw [hib, hsetself] at hi
                    omega
                  rw [hib, hk2k]
                  exact Reaches.step
                    ((hreach k cur hcur).mono hmono (by omega))
                    (hsub nb (List.mem_cons_self nb rest)) hsetself
                · rw [listGetD_set_ne (fun h => hib h.symm) _ _] at hi
                  exact (hreach k2 i hi).mono hmono (by omega))
            refine ⟨c1, ?_, c3, c4, c5⟩
            intro i hi
            rw [c2 i (by rw [hmono i hi]; exact hi), hmono i hi]
          · rw [if_neg hroll]
            refine ⟨hlen, fun i _ => rfl, ?_, hseeds, hreach⟩
            intro c hc
            rcases List.mem_append.mp hc with hc | hc
            · exact hq c hc
            · rw [List.mem_singleton.mp hc]
              exact hcur

/-- One state's growth turn preserves the growth invariants. -/
theorem StateGenerator.stateTurn_inv (g : ℕ → ℚ) (heights : List ℚ)
    (nbrs : ℕ → List ℕ) (sids seeds : List ℕ) (n k : ℕ)
    (hnbrs : ∀ c, ∀ j ∈ nbrs c, j < n)
    (hsidk : sids.getD k 0 = k + 1) (st : GrowSt)
    (hinv : GrowInv nbrs seeds n st) :
    GrowInv nbrs seeds n
      (StateGenerator.stateTurn g heights nbrs sids k st).1 := by
  obtain ⟨hlen, hq, hseeds, hreach⟩ := hinv
  cases hqk : st.queues.getD k [] with
  | nil =>
      simp only [StateGenerator.stateTurn, hqk]
      exact ⟨hlen, hq, hseeds, hreach⟩
  | cons cur qrest =>
      have hklen : k < st.queues.length := by
        by_contra hkl
        rw [List.getD_eq_default _ _ (Nat.le_of_not_lt hkl)] at hqk
        exact List.noConfusion hqk
      have hcur : st.cellStates.getD cur 0 = k + 1 :=
        hq k cur (by rw [hqk]; exact List.mem_cons_self cur qrest)
      obtain ⟨c1, c2, c3, c4, c5⟩ := StateGenerator.claimNeighbors_inv g
        heights nbrs seeds n k cur hnbrs (nbrs cur)
        ⟨st.cellStates, qrest, st.counts.getD k 0, st.r, false⟩
        (fun x hx => hx) hlen
        (fun c hc => hq k c (by rw [hqk]; exact List.mem_cons_of_mem cur hc))
        hcur hseeds hreach
      simp only [StateGenerator.stateTurn, hqk, hsidk]
      refine ⟨c1, ?_, c4, c5⟩
      intro k2 c hc
      by_cases hkk : k2 = k
      · subst hkk
        rw [listGetD_set_self hklen _ _] at hc
        exact c3 c hc
      · rw [listGetD_set_ne (fun h => hkk h.symm) _ _] at hc
        have hold := hq k2 c hc
        rw [c2 c (by rw [hold]; omega)]
        exact hold

/-- A full growth round preserves the growth invariants. -/
theorem StateGenerator.growRound_inv (g : ℕ → ℚ) (heights : List ℚ)
    (nbrs : ℕ → List ℕ) (sids seeds : List ℕ) (n : ℕ)
    (hnbrs : ∀ c, ∀ j ∈ nbrs c, j < n)
    (hsids : ∀ k, k < sids.length → sids.getD k 0 = k + 1) (st : GrowSt)
    (hinv : GrowInv nbrs seeds n st) :
    GrowInv nbrs seeds n
      (StateGenerator.growRound g heights nbrs sids st).1 := by
  rw [StateGenerator.growRound]
  have key : ∀ (l : List ℕ), (∀ x ∈ l, x < sids.length) →
      ∀ acc : GrowSt × Bool, GrowInv nbrs seeds n acc.1 →
      GrowInv nbrs seeds n
        ((l.foldl (fun acc k =>
          ((StateGenerator.stateTurn g heights nbrs sids k acc.1).1,
           acc.2 || (StateGenerator.stateTurn g heights nbrs sids k acc.1).2))
          acc)).1 := by
    intro l
    induction l with
    | nil => intro _ acc h; exact h
    | cons x xs ih =>
        intro hmem acc h
        rw [List.foldl_cons]
        exact ih (fun y hy => hmem y (List.mem_cons_of_mem x hy)) _
          (StateGenerator.stateTurn_inv g heights nbrs sids seeds n x hnbrs
            (hsids x (hmem x (List.mem_cons_self x xs))) acc.1 h)
  exact key (List.range sids.length) (fun x hx => List.mem_range.mp hx)
    (st, false) hinv

/-- The bounded growth loop preserves the growth invariants. -/
theorem StateGenerator.growLoop_inv (g : ℕ → ℚ) (heights : List ℚ)
    (nbrs : ℕ → List ℕ) (sids seeds : List ℕ) (n : ℕ)
    (hnbrs : ∀ c, ∀ j ∈ nbrs c, j < n)
    (hsids : ∀ k, k < sids.length → sids.getD k 0 = k + 1) :
    ∀ (fuel : ℕ) (st : GrowSt), GrowInv nbrs seeds n st →
      GrowInv nbrs seeds n
        (StateGenerator.growLoop g heights nbrs sids fuel st) := by
  intro fuel
  induction fuel with
  | zero => intro st h; exact h
  | succ fuel ih =>
      intro st h
      rw [StateGenerator.growLoop]
      by_cases hact : (StateGenerator.growRound g heights nbrs sids st).2
      · rw [if_pos hact]
        exact ih _ (StateGenerator.growRound_inv g heights nbrs sids seeds n
          hnbrs hsids st h)
      · rw [if_neg hact]
        exact StateGenerator.growRound_inv g heights nbrs sids seeds n hnbrs
          hsids st h

/-- A technical helper: distinct positions of a nodup list hold distinct
values (stated for `getD` reads at in-range positions). -/
theorem nodup_getD_ne {l : List ℕ} (hnd : l.Nodup) {a b : ℕ}
    (ha : a < l.length) (hb : b < l.length) (hab : a ≠ b) :
    l.getD a 0 ≠ l.getD b 0 := by
  rw [List.getD_eq_getElem _ _ ha, List.getD_eq_getElem _ _ hb]
  intro h
  exact hab (hnd.getElem_inj_iff.mp h)

/-- Characterisation of the prefix runs of the initialisation loop: state
ids are positional, the ownership array keeps its length, each processed
seed cell is claimed by its state, and no other cell is claimed. -/
theorem StateGenerator.initScan_inv (g : ℕ → ℚ) (points : List ℚ)
    (seeds : List ℕ) (cs0 : List ℕ) (r0 n : ℕ)
    (hlen : cs0.length = n)
    (hzero : ∀ i, cs0.getD i 0 = 0)
    (hnodup : seeds.Nodup)
    (hbound : ∀ c ∈ seeds, c < n) :
    ∀ t, t ≤ seeds.length →
    ((List.range t).foldl (StateGenerator.initStep g points seeds)
      ([], cs0, r0)).1.length = t ∧
    (∀ k, k < t →
      (((List.range t).foldl (StateGenerator.initStep g points seeds)
        ([], cs0, r0)).1.getD k stateDefault).id = k + 1) ∧
    ((List.range t).foldl (StateGenerator.initStep g points seeds)
      ([], cs0, r0)).2.1.length = n ∧
    (∀ k, k < t →
      ((List.range t).foldl (StateGenerator.initStep g points seeds)
        ([], cs0, r0)).2.1.getD (seeds.getD k 0) 0 = k + 1) ∧
    (∀ i, ((List.range t).foldl (StateGenerator.initStep g points seeds)
        ([], cs0, r0)).2.1.getD i 0 ≠ 0 →
      ∃ k, k < t ∧ i = seeds.getD k 0 ∧
        ((List.range t).foldl (StateGenerator.initStep g points seeds)
          ([], cs0, r0)).2.1.getD i 0 = k + 1) := by
  intro t
  induction t with
  | zero =>
      intro _
      refine ⟨rfl, fun k hk => absurd hk (Nat.not_lt_zero k), hlen, ?_, ?_⟩
      · intro k hk
        exact absurd hk (Nat.not_lt_zero k)
      · intro i hi
        exact absurd (hzero i) hi
  | succ t ih =>
      intro ht
      obtain ⟨ih1, ih2, ih3, ih4, ih5⟩ := ih (Nat.le_of_succ_le ht)
      rw [List.range_succ, List.foldl_append, List.foldl_cons, List.foldl_nil]
      simp only [StateGenerator.initStep]
      have hstlt : seeds.getD t 0 < n := by
        apply hbound
        rw [List.getD_eq_getElem _ _ (Nat.lt_of_succ_le ht)]
        exact List.getElem_mem (Nat.lt_of_succ_le ht)
      refine ⟨?_, ?_, ?_, ?_, ?_⟩
      · simp only [List.length_append, List.length_cons, List.length_nil, ih1]
      · intro k hk
        rcases Nat.lt_succ_iff_lt_or_eq.mp hk with hk | hk
        · rw [List.getD_append _ _ _ _ (by rw [ih1]; exact hk)]
          exact ih2 k hk
        · subst hk
          rw [List.getD_append_right _ _ _ _ (by rw [ih1])]
          simp [ih1]
      · simp only [List.length_set, ih3]
      · intro k hk
        rcases Nat.lt_succ_iff_lt_or_eq.mp hk with hk | hk
        · have hne : seeds.getD t 0 ≠ seeds.getD k 0 :=
            nodup_getD_ne hnodup (Nat.lt_of_succ_le ht)
              (Nat.lt_of_lt_of_le hk (Nat.le_of_succ_le ht)) (by omega)
          rw [listGetD_set_ne hne _ _]
          exact ih4 k hk
        · subst hk
          rw [listGetD_set_self (by rw [ih3]; exact hstlt) _ _]
      · intro i hi
        by_cases hit : i = seeds.getD t 0
        · refine ⟨t, Nat.lt_succ_self t, hit, ?_⟩
          rw [hit, listGetD_set_self (by rw [ih3]; exact hstlt) _ _]
        · rw [listGetD_set_ne (fun h => hit h.symm) _ _] at hi ⊢
          obtain ⟨k, hk, hik, hval⟩ := ih5 i hi
          exact ⟨k, Nat.lt_succ_of_lt hk, hik, hval⟩

/-- C4: after state generation completes (given an all-unclaimed input
ownership array, distinct in-range seed cells — guaranteed in practice by
the spacing constraint and the land-cell scan — and in-range mesh
adjacency), the `k`-th returned state's id `k + 1` still marks its original
seed cell, and every cell claimed with id `k + 1` is reachable from that
seed cell via a chain of mesh-neighbour steps passing only through cells
claimed by the same state. -/
theorem StateGenerator.generate_connected (ext : MapExt) (m : WorldMap)
    (numStates : ℕ) (seed : ℤ)
    (hland : ¬ (StateGenerator.landCells m.cells.heights).length < numStates)
    (hzero : ∀ i : ℕ, m.cells.states.getD i 0 = 0)
    (hlen : m.cells.states.length = m.cells.heights.length)
    (hnbrs : ∀ c : ℕ, ∀ j ∈ ext.delaunayNeighbors m.points c,
      j < m.cells.heights.length)
    (hnodup : (StateGenerator.seedCells ext m numStates seed).Nodup)
    (hbound : ∀ c ∈ StateGenerator.seedCells ext m numStates seed,
      c < m.cells.heights.length)
    (k : ℕ)
    (hk : k < (StateGenerator.seedCells ext m numStates seed).length) :
    (StateGenerator.generate ext m numStates seed).2.getD
      ((StateGenerator.seedCells ext m numStates seed).getD k 0) 0 = k + 1 ∧
    ∀ i, (StateGenerator.generate ext m numStates seed).2.getD i 0 = k + 1 →
      Reaches (ext.delaunayNeighbors m.points)
        (StateGenerator.generate ext m numStates seed).2 (k + 1)
        ((StateGenerator.seedCells ext m numStates seed).getD k 0) i := by
  obtain ⟨i1, i2, i3, i4, i5⟩ := StateGenerator.initScan_inv (ext.alea seed)
    m.points (StateGenerator.seedCells ext m numStates seed) m.cells.states
    (ext.jsSortRandom (ext.alea seed) 0
      (StateGenerator.landCells m.cells.heights)).2
    m.cells.heights.length hlen hzero hnodup hbound
    (StateGenerator.seedCells ext m numStates seed).length le_rfl
  have hini : StateGenerator.initStates (ext.alea seed) m.points
      (StateGenerator.seedCells ext m numStates seed) m.cells.states
      (ext.jsSortRandom (ext.alea seed) 0
        (StateGenerator.landCells m.cells.heights)).2 =
      (List.range (StateGenerator.seedCells ext m numStates seed).length).foldl
        (StateGenerator.initStep (ext.alea seed) m.points
          (StateGenerator.seedCells ext m numStates seed))
        ([], m.cells.states,
         (ext.jsSortRandom (ext.alea seed) 0
           (StateGenerator.landCells m.cells.heights)).2) := rfl
  rw [← hini] at i1 i2 i3 i4 i5
  have hsids : ∀ k2, k2 < ((StateGenerator.initStates (ext.alea seed) m.points
      (StateGenerator.seedCells ext m numStates seed) m.cells.states
      (ext.jsSortRandom (ext.alea seed) 0
        (StateGenerator.landCells m.cells.heights)).2).1.map State.id).length →
      ((StateGenerator.initStates (ext.alea seed) m.points
        (StateGenerator.seedCells ext m numStates seed) m.cells.states
        (ext.jsSortRandom (ext.alea seed) 0
          (StateGenerator.landCells m.cells.heights)).2).1.map
        State.id).getD k2 0 = k2 + 1 := by
    intro k2 hk2
    rw [List.length_map] at hk2
    rw [List.getD_eq_getElem _ _ (by rw [List.length_map]; exact hk2),
      List.getElem_map]
    have := i2 k2 (by rw [← i1]; exact hk2)
    rw [List.getD_eq_getElem _ _ hk2] at this
    exact this
  have hinv0 : GrowInv (ext.delaunayNeighbors m.points)
      (StateGenerator.seedCells ext m numStates seed)
      m.cells.heights.length
      { cellStates := (StateGenerator.initStates (ext.alea seed) m.points
          (StateGenerator.seedCells ext m numStates seed) m.cells.states
          (ext.jsSortRandom (ext.alea seed) 0
            (StateGenerator.landCells m.cells.heights)).2).2.1
        queues := (StateGenerator.seedCells ext m numStates seed).map
          fun c => [c]
        counts := List.replicate
          (StateGenerator.seedCells ext m numStates seed).length 1
        r := (StateGenerator.initStates (ext.alea seed) m.points
          (StateGenerator.seedCells ext m numStates seed) m.cells.states
          (ext.jsSortRandom (ext.alea seed) 0
            (StateGenerator.landCells m.cells.heights)).2).2.2 } := by
    refine ⟨i3, ?_, i4, ?_⟩
    · intro k2 c hc
      by_cases hk2 : k2 < (StateGenerator.seedCells ext m numStates seed).length
      · rw [show ((StateGenerator.seedCells ext m numStates seed).map
            fun c => [c]).getD k2 [] =
            [(StateGenerator.seedCells ext m numStates seed).getD k2 0] from by
          rw [List.getD_eq_getElem _ _ (by rw [List.length_map]; exact hk2),
            List.getElem_map, List.getD_eq_getElem _ _ hk2]] at hc
        rw [List.mem_singleton.mp hc]
        exact i4 k2 hk2
      · rw [List.getD_eq_default _ _ (by
          rw [List.length_map]; exact Nat.le_of_not_lt hk2)] at hc
        exact absurd hc (List.not_mem_nil c)
    · intro k2 i hi
      obtain ⟨k0, hk0, hik0, hval⟩ := i5 i (by rw [hi]; omega)
      have hk02 : k0 = k2 := by
        rw [hi] at hval
        omega
      subst hk02
      rw [hik0]
      exact Reaches.refl
  have hgrow := StateGenerator.growLoop_inv (ext.alea seed) m.cells.heights
    (ext.delaunayNeighbors m.points)
    ((StateGenerator.initStates (ext.alea seed) m.points
      (StateGenerator.seedCells ext m numStates seed) m.cells.states
      (ext.jsSortRandom (ext.alea seed) 0
        (StateGenerator.landCells m.cells.heights)).2).1.map State.id)
    (StateGenerator.seedCells ext m numStates seed)
    m.cells.heights.length hnbrs hsids
    (StateGenerator.growFuel m.cells.heights.length numStates) _ hinv0
  obtain ⟨g1, g2, g3, g4⟩ := hgrow
  have hgen2 : (StateGenerator.generate ext m numStates seed).2 =
      (StateGenerator.growLoop (ext.alea seed) m.cells.heights
        (ext.delaunayNeighbors m.points)
        ((StateGenerator.initStates (ext.alea seed) m.points
          (StateGenerator.seedCells ext m numStates seed) m.cells.states
          (ext.jsSortRandom (ext.alea seed) 0
            (StateGenerator.landCells m.cells.heights)).2).1.map State.id)
        (StateGenerator.growFuel m.cells.heights.length numStates)
        { cellStates := (StateGenerator.initStates (ext.alea seed) m.points
            (StateGenerator.seedCells ext m numStates seed) m.cells.states
            (ext.jsSortRandom (ext.alea seed) 0
              (StateGenerator.landCells m.cells.heights)).2).2.1
          queues := (StateGenerator.seedCells ext m numStates seed).map
            fun c => [c]
          counts := List.replicate
            (StateGenerator.seedCells ext m numStates seed).length 1
          r := (StateGenerator.initStates (ext.alea seed) m.points
            (StateGenerator.seedCells ext m numStates seed) m.cells.states
            (ext.jsSortRandom (ext.alea seed) 0
              (StateGenerator.landCells m.cells.heights)).2).2.2 }).cellStates := by
    simp only [StateGenerator.generate, StateGenerator.seedCells]
    rw [if_neg hland]
  rw [hgen2]
  exact ⟨g3 k hk, fun i hi => g4 k i hi⟩

/-- A concrete three-cell world for the state-connectivity witness: two land
cells (heights `0.5`) and one ocean cell, one state. -/
def worldC4 : WorldMap where
  seed := 0
  width := 100
  height := 100
  points := [0, 0, 1, 0, 2, 0]
  cells :=
    { heights := [1/2, 1/2, 1/10]
      biomes := [2, 2, 0]
      states := [0, 0, 0]
      cultures := [0, 0, 0]
      pop := [0, 0, 0] }
  rivers := []
  roads := []
  cities := []
  castles := []
  markers := []
  labels := []
  states := []
  nextId := { city := 1, state := 1, castle := 1, marker := 1 }

/-- Chain adjacency over the three cells of `worldC4`. -/
def nbrsC4 : List ℚ → ℕ → List ℕ := fun _ c =>
  if c = 0 then [1] else if c = 1 then [0, 2] else if c = 2 then [1] else []

/-- Oracles for the state-connectivity witness: identity shuffle and chain
adjacency. -/
def extC4 : MapExt := { extTriv with delaunayNeighbors := nbrsC4 }

/-- Witness for C4: in `worldC4` with one state seeded at cell 0, the final
ownership array keeps id 1 on the seed cell and every cell owned by state 1
is mesh-reachable from the seed through state-1 cells. -/
theorem StateGenerator.generate_connected_witness :
    (StateGenerator.generate extC4 worldC4 1 0).2.getD
      ((StateGenerator.seedCells extC4 worldC4 1 0).getD 0 0) 0 = 0 + 1 ∧
    ∀ i, (StateGenerator.generate extC4 worldC4 1 0).2.getD i 0 = 0 + 1 →
      Reaches (extC4.delaunayNeighbors worldC4.points)
        (StateGenerator.generate extC4 worldC4 1 0).2 (0 + 1)
        ((StateGenerator.seedCells extC4 worldC4 1 0).getD 0 0) i := by
  have hseeds : StateGenerator.seedCells extC4 worldC4 1 0 = [0] := by
    with_unfolding_all rfl
  have hlc : (StateGenerator.landCells worldC4.cells.heights).length = 2 := by
    with_unfolding_all rfl
  have hhl : worldC4.cells.heights.length = 3 := rfl
  exact StateGenerator.generate_connected extC4 worldC4 1 0
    (by rw [hlc]; omega)
    (by
      intro i
      match i with
      | 0 => rfl
      | 1 => rfl
      | 2 => rfl
      | (n + 3) => rfl)
    rfl
    (by
      intro c j hj
      rw [hhl]
      have hne : extC4.delaunayNeighbors = nbrsC4 := rfl
      rw [hne, nbrsC4] at hj
      split_ifs at hj <;> simp at hj <;> omega)
    (by rw [hseeds]; decide)
    (by
      rw [hseeds, hhl]
      intro c hc
      rw [List.mem_singleton.mp hc]
      omega)
    0
    (by rw [hseeds]; decide)
